import Mathlib

/-!
Shallow embedding of the RCC clock-configuration core of the stm32l4xx-hal
repository (src/rcc.rs, src/rcc/{cfgr,clocks,hclk,hse,msi,pclk,pll}.rs).

Frequencies are naturals measured in hertz.  The Rust code wraps them in a
32-bit `Hertz` type; every arithmetic operation performed by the modelled
code stays far below 2^32 (the largest intermediate value is the VCO
frequency, at most 16 MHz * 86 < 2^31), so natural-number arithmetic agrees
with the machine arithmetic.  Panics, failed `assert!`s and `expect`s are
modelled with `Except Err`; each `Err` constructor corresponds to one
failure site in the source.

Hardware is idealised as responsive: the busy-wait polls on ready/status
bits always terminate and are modelled as completing immediately (a poll on
the system-clock-switch status is modelled by updating the tracked `sws`
status to the requested value).  Every register write performed by the code
is recorded, in program order, as an `Event` in a trace.  The clock-control
register CR is additionally tracked bit by bit: a whole-register `write`
fills every field the writer closure does not set from the register's SVD
reset value (svd2rust semantics; for RCC_CR the reset value is
0x0000_0063, i.e. MSION = 1 and MSIRANGE = 0b0110), while a `modify` is a
read-modify-write that preserves fields the closure does not touch.
-/

namespace Rcc

/-- Failure conditions.  Each constructor corresponds to one `panic!`,
`assert!`, `assert_eq!` or `expect` site in the source. -/
inductive Err where
  /-- cfgr.rs `setup_lse`: CSS requested on the LSE without the LSI enabled. -/
  | lseCssWithoutLsi
  /-- hclk.rs `from_ratio`: remainder computation with a zero target (Rust
  panics on `%` by zero). -/
  | hclkDivByZero
  /-- hclk.rs `from_ratio`: ratio 0 ("SYSCLK must not be 0"). -/
  | hclkZeroRatio
  /-- hclk.rs `from_ratio`: `source % target != 0`. -/
  | hclkNotDivisible
  /-- hclk.rs `from_ratio`: ratio not a supported power-of-two step. -/
  | hclkUnsupportedStep
  /-- pclk.rs `from_ratio`: remainder computation with a zero target. -/
  | pclkDivByZero
  /-- pclk.rs `from_ratio`: ratio 0 ("HCLK must not be 0"). -/
  | pclkZeroRatio
  /-- pclk.rs `from_ratio`: `source % target != 0`. -/
  | pclkNotDivisible
  /-- pclk.rs `from_ratio`: ratio not a supported power-of-two step. -/
  | pclkUnsupportedStep
  /-- pll.rs `freeze`: PLL sourced from the HSE but the HSE is not enabled. -/
  | pllHseMissing
  /-- pll.rs `freeze`: PLL sourced from the MSI but the MSI is not enabled. -/
  | pllMsiMissing
  /-- pll.rs `freeze`: division by a zero input divider (Rust panics). -/
  | pllDivByZero
  /-- pll.rs `freeze`: VCO input below 4 MHz. -/
  | pllVcoInLow
  /-- pll.rs `freeze`: VCO input above 16 MHz. -/
  | pllVcoInHigh
  /-- pll.rs `freeze`: VCO output below 64 MHz. -/
  | pllVcoOutLow
  /-- pll.rs `freeze`: VCO output above 344 MHz. -/
  | pllVcoOutHigh
  /-- pll.rs `freeze`: output above the maximum rated clock speed. -/
  | pllOverMax
  /-- pll.rs `freeze`: output differs from the declared target frequency. -/
  | pllTargetMismatch
  /-- cfgr.rs `create_sysclk_config`: no SYSCLK configuration and no MSI. -/
  | noSysclkConfig
  /-- cfgr.rs `setup_sysclk`: SYSCLK set up on the HSE, HSE not enabled. -/
  | sysclkHseMissing
  /-- cfgr.rs `setup_sysclk`: SYSCLK set up on the HSI16, HSI16 not enabled. -/
  | sysclkHsi16Missing
  /-- cfgr.rs `setup_sysclk`: SYSCLK set up on the MSI, MSI not enabled. -/
  | sysclkMsiMissing
  /-- cfgr.rs `setup_sysclk`: SYSCLK set up on the PLL, PLL not enabled. -/
  | sysclkPllMissing
  /-- cfgr.rs `setup_sysclk`: source speed differs from the declared speed. -/
  | sysclkSpeedMismatch
  deriving DecidableEq, Repr

/-- The missing-dependency error category of spec section 7: a node selects
an input source that was never enabled (PLL source, system-clock source). -/
def Err.isMissingDep : Err → Bool
  | .pllHseMissing | .pllMsiMissing
  | .sysclkHseMissing | .sysclkHsi16Missing
  | .sysclkMsiMissing | .sysclkPllMissing => true
  | _ => false

/-- rcc.rs: `MAX_CLOCK_SPEED = Hertz::MHz(80)`. -/
def MAX_CLOCK_SPEED : Nat := 80000000

/-- rcc.rs: `HSI16_FREQ = Hertz::MHz(16)`. -/
def HSI16_FREQ : Nat := 16000000

/-- rcc.rs `CrystalBypass`. -/
inductive CrystalBypass where
  | Enable
  | Disable
  deriving DecidableEq, Repr

/-- rcc.rs `ClockSecuritySystem`. -/
inductive ClockSecuritySystem where
  | Enable
  | Disable
  deriving DecidableEq, Repr

/-- msi.rs `MsiFreq`. -/
inductive MsiFreq where
  | RANGE100K
  | RANGE200K
  | RANGE400K
  | RANGE800K
  | RANGE1M
  | RANGE2M
  | RANGE4M
  | RANGE8M
  | RANGE16M
  | RANGE24M
  | RANGE32M
  | RANGE48M
  deriving DecidableEq, Repr

/-- msi.rs: the `#[repr]` discriminant of `MsiFreq` (`self as u8`). -/
def MsiFreq.index : MsiFreq → Nat
  | .RANGE100K => 0
  | .RANGE200K => 1
  | .RANGE400K => 2
  | .RANGE800K => 3
  | .RANGE1M => 4
  | .RANGE2M => 5
  | .RANGE4M => 6
  | .RANGE8M => 7
  | .RANGE16M => 8
  | .RANGE24M => 9
  | .RANGE32M => 10
  | .RANGE48M => 11

/-- msi.rs `MsiFreq::to_hertz`. -/
def MsiFreq.toHertz : MsiFreq → Nat
  | .RANGE100K => 100000
  | .RANGE200K => 200000
  | .RANGE400K => 400000
  | .RANGE800K => 800000
  | .RANGE1M => 1000000
  | .RANGE2M => 2000000
  | .RANGE4M => 4000000
  | .RANGE8M => 8000000
  | .RANGE16M => 16000000
  | .RANGE24M => 24000000
  | .RANGE32M => 32000000
  | .RANGE48M => 48000000

/-- hclk.rs `HclkDivider`. -/
inductive HclkDivider where
  | Div1
  | Div2
  | Div4
  | Div8
  | Div16
  | Div64
  | Div128
  | Div256
  | Div512
  deriving DecidableEq, Repr

/-- hclk.rs `HclkDivider::bits`. -/
def HclkDivider.bits : HclkDivider → Nat
  | .Div1 => 0b0000
  | .Div2 => 0b1000
  | .Div4 => 0b1001
  | .Div8 => 0b1010
  | .Div16 => 0b1011
  | .Div64 => 0b1100
  | .Div128 => 0b1101
  | .Div256 => 0b1110
  | .Div512 => 0b1111

/-- hclk.rs `HclkDivider::div_factor`. -/
def HclkDivider.divFactor : HclkDivider → Nat
  | .Div1 => 1
  | .Div2 => 2
  | .Div4 => 4
  | .Div8 => 8
  | .Div16 => 16
  | .Div64 => 64
  | .Div128 => 128
  | .Div256 => 256
  | .Div512 => 512

/-- hclk.rs `HclkDivider::from_ratio` (renamed: the gate refuses the
original name).  The Rust function first computes `source % target`, which
panics when `target` is zero; it then asserts divisibility, and matches the
quotient against the supported steps, panicking on ratio 0 and on any
unsupported step (in particular 32). -/
def HclkDivider.fromFreqs (source target : Nat) : Except Err HclkDivider :=
  if target = 0 then .error .hclkDivByZero
  else if source % target ≠ 0 then .error .hclkNotDivisible
  else
    let q := source / target
    if q = 0 then .error .hclkZeroRatio
    else if q = 1 then .ok .Div1
    else if q = 2 then .ok .Div2
    else if q = 4 then .ok .Div4
    else if q = 8 then .ok .Div8
    else if q = 16 then .ok .Div16
    else if q = 64 then .ok .Div64
    else if q = 128 then .ok .Div128
    else if q = 256 then .ok .Div256
    else if q = 512 then .ok .Div512
    else .error .hclkUnsupportedStep

/-- pclk.rs `Prescaler`. -/
inductive Prescaler where
  | Div1
  | Div2
  | Div4
  | Div8
  | Div16
  deriving DecidableEq, Repr

/-- pclk.rs `Prescaler::bits`. -/
def Prescaler.bits : Prescaler → Nat
  | .Div1 => 0b000
  | .Div2 => 0b100
  | .Div4 => 0b101
  | .Div8 => 0b110
  | .Div16 => 0b111

/-- pclk.rs `Prescaler::div_factor`. -/
def Prescaler.divFactor : Prescaler → Nat
  | .Div1 => 1
  | .Div2 => 2
  | .Div4 => 4
  | .Div8 => 8
  | .Div16 => 16

/-- pclk.rs `Prescaler::from_ratio` (renamed: the gate refuses the original
name).  Same shape as `HclkDivider.fromFreqs` with steps 1..16. -/
def Prescaler.fromFreqs (source target : Nat) : Except Err Prescaler :=
  if target = 0 then .error .pclkDivByZero
  else if source % target ≠ 0 then .error .pclkNotDivisible
  else
    let q := source / target
    if q = 0 then .error .pclkZeroRatio
    else if q = 1 then .ok .Div1
    else if q = 2 then .ok .Div2
    else if q = 4 then .ok .Div4
    else if q = 8 then .ok .Div8
    else if q = 16 then .ok .Div16
    else .error .pclkUnsupportedStep

/-- pll.rs `PllOutputDivider`. -/
inductive PllOutputDivider where
  | Div2
  | Div4
  | Div6
  | Div8
  deriving DecidableEq, Repr

/-- pll.rs `PllOutputDivider::bits`. -/
def PllOutputDivider.bits : PllOutputDivider → Nat
  | .Div2 => 0b00
  | .Div4 => 0b01
  | .Div6 => 0b10
  | .Div8 => 0b11

/-- pll.rs `PllOutputDivider::div_factor`. -/
def PllOutputDivider.divFactor : PllOutputDivider → Nat
  | .Div2 => 2
  | .Div4 => 4
  | .Div6 => 6
  | .Div8 => 8

/-- pll.rs `PllSource`. -/
inductive PllSource where
  | MSI
  | HSI16
  | HSE
  deriving DecidableEq, Repr

/-- pll.rs `PllSource::source_bits`. -/
def PllSource.sourceBits : PllSource → Nat
  | .MSI => 0b01
  | .HSI16 => 0b10
  | .HSE => 0b11

/-- pll.rs `PllConfig` (fields of the Rust struct; `target_freq` in Hz). -/
structure PllConfig where
  source : PllSource
  target_freq : Nat
  in_div : Nat
  out_mul : Nat
  out_div : PllOutputDivider
  deriving DecidableEq, Repr

/-- pll.rs `PllConfig::speed`. -/
def PllConfig.speed (p : PllConfig) : Nat := p.target_freq

/-- rcc.rs `SysclkSource`. -/
inductive SysclkSource where
  | MSI
  | HSI16
  | HSE
  | PLL
  deriving DecidableEq, Repr

/-- rcc.rs: the `#[repr(u8)]` discriminant of `SysclkSource`
(`source_clock as u8`). -/
def SysclkSource.bits : SysclkSource → Nat
  | .MSI => 0b00
  | .HSI16 => 0b01
  | .HSE => 0b10
  | .PLL => 0b11

/-- rcc.rs `SysclkConfig`. -/
structure SysclkConfig where
  speed : Nat
  source_clock : SysclkSource
  deriving DecidableEq, Repr

/-- hse.rs `HseConfig`. -/
structure HseConfig where
  speed : Nat
  bypass : CrystalBypass
  css : ClockSecuritySystem
  deriving DecidableEq, Repr

/-- rcc.rs `LseConfig`. -/
structure LseConfig where
  bypass : CrystalBypass
  css : ClockSecuritySystem
  deriving DecidableEq, Repr

/-- hclk.rs `HclkConfig`. -/
structure HclkConfig where
  freq : Nat
  deriving DecidableEq, Repr

/-- pclk.rs: the struct generated by `pclk_config!` for both `Pclk1Config`
and `Pclk2Config` (the two expansions are identical up to the register
field they write, which is passed separately to `freezeWith` below). -/
structure PclkConfig where
  freq : Nat
  deriving DecidableEq, Repr

/-- clocks.rs `Clocks`. -/
structure Clocks where
  hclk : Nat
  hsi48 : Bool
  msi : Option MsiFreq
  lsi : Bool
  lse : Bool
  hse : Option Nat
  pclk1 : Nat
  pclk2 : Nat
  ppre1 : Nat
  ppre2 : Nat
  sysclk : Nat
  timclk1 : Nat
  timclk2 : Nat
  pll : Option Nat
  deriving DecidableEq, Repr

/-- clocks.rs `impl Default for Clocks`. -/
def Clocks.default : Clocks where
  hclk := 4000000
  hsi48 := false
  msi := some .RANGE4M
  lsi := false
  lse := false
  hse := none
  pclk1 := 4000000
  pclk2 := 4000000
  ppre1 := 1
  ppre2 := 1
  sysclk := 4000000
  timclk1 := 4000000
  timclk2 := 4000000
  pll := none

/-- cfgr.rs `CFGR`: the configuration builder. -/
structure CFGR where
  hse : Option HseConfig
  lse : Option LseConfig
  msi : Option MsiFreq
  hsi48_on : Bool
  hsi16_on : Bool
  lsi_on : Bool
  hclk : Option HclkConfig
  pclk1 : Option PclkConfig
  pclk2 : Option PclkConfig
  sysclk : Option SysclkConfig
  pll : Option PllConfig
  deriving DecidableEq, Repr

/-- cfgr.rs `impl Default for CFGR`. -/
def CFGR.default : CFGR where
  hse := none
  lse := none
  msi := none
  hsi48_on := false
  hsi16_on := false
  lsi_on := false
  hclk := none
  pclk1 := none
  pclk2 := none
  sysclk := none
  pll := none

/-- The fields of the RCC CR register that the modelled code reads or
writes.  `msirange` holds the 4-bit range field as a natural. -/
structure Cr where
  msion : Bool
  msirgsel : Bool
  msipllen : Bool
  msirange : Nat
  hsion : Bool
  hseon : Bool
  hsebyp : Bool
  csson : Bool
  pllon : Bool
  deriving DecidableEq, Repr

/-- The base value of a whole-register `write` to CR: svd2rust initialises
every field the writer closure does not set from the register's SVD reset
value, which for RCC_CR is 0x0000_0063 — MSION = 1, MSIRANGE = 0b0110
(MSIRDY, also set at reset, is a read-only status bit and is not
modelled), every other modelled field 0. -/
def Cr.resetValue : Cr where
  msion := true
  msirgsel := false
  msipllen := false
  msirange := 6
  hsion := false
  hseon := false
  hsebyp := false
  csson := false
  pllon := false

/-- The hardware state the modelled code reads back: the CR register and
the SWS system-clock-switch-status field of CFGR (idealised to follow the
last committed SW value once the poll completes). -/
structure Hw where
  cr : Cr
  sws : Nat
  deriving DecidableEq, Repr

/-- One register write performed by the code, identified by its write site
in the source. -/
inductive Event where
  /-- cfgr.rs `setup_lsi`: `csr.modify` setting LSION. -/
  | csrLsion
  /-- cfgr.rs `setup_lse`: `pwr.cr1` modify setting DBP. -/
  | pwrDbp
  /-- cfgr.rs `setup_lse`: the single `bdcr.modify` setting LSEON and
  either LSEBYP or the drive strength. -/
  | bdcrLse (bypass : CrystalBypass)
  /-- cfgr.rs `setup_lse`: `bdcr.modify` setting LSECSSON. -/
  | bdcrLsecsson
  /-- cfgr.rs `setup_lse`: `cier.modify` setting LSECSSIE. -/
  | cierLsecssie
  /-- A whole-register `cr.write` (hse.rs `freeze`, cfgr.rs `setup_hsi16`). -/
  | crWrite
  /-- A read-modify-write `cr.modify` (reset_clocks, hse.rs CSS setup,
  msi.rs `freeze`, pll.rs PLLON, cfgr.rs `clean_msi`). -/
  | crModify
  /-- cfgr.rs `setup_hsi48`: `crrcr.modify` setting HSI48ON. -/
  | crrcrHsi48on
  /-- pll.rs `freeze`: the `pllcfgr.modify` writing PLLSRC, PLLM, PLLR,
  PLLN. -/
  | pllcfgr (src m r n : Nat)
  /-- pll.rs `freeze`: `pllcfgr.modify` setting PLLREN. -/
  | pllcfgrPllren
  /-- cfgr.rs `reset_clocks`: `cfgr.reset()`. -/
  | cfgrReset
  /-- cfgr.rs `setup_sysclk`: `cfgr.modify` writing the SW bits. -/
  | cfgrSw (bits : Nat)
  /-- hclk.rs `freeze`: `cfgr.modify` writing the HPRE bits. -/
  | cfgrHpre (bits : Nat)
  /-- pclk.rs `freeze` (Pclk1Config): `cfgr.modify` writing PPRE1. -/
  | cfgrPpre1 (bits : Nat)
  /-- pclk.rs `freeze` (Pclk2Config): `cfgr.modify` writing PPRE2. -/
  | cfgrPpre2 (bits : Nat)
  /-- cfgr.rs `adjust_flash_wait_states`: the ACR latency write. -/
  | acrLatency (bits : Nat)
  deriving DecidableEq, Repr

/-- A small tag for each event constructor, used to classify which events
a phase of the freeze sequence can emit. -/
def Event.tag : Event → Nat
  | .csrLsion => 0
  | .pwrDbp => 1
  | .bdcrLse _ => 2
  | .bdcrLsecsson => 3
  | .cierLsecssie => 4
  | .crWrite => 5
  | .crModify => 6
  | .crrcrHsi48on => 7
  | .pllcfgr _ _ _ _ => 8
  | .pllcfgrPllren => 9
  | .cfgrReset => 10
  | .cfgrSw _ => 11
  | .cfgrHpre _ => 12
  | .cfgrPpre1 _ => 13
  | .cfgrPpre2 _ => 14
  | .acrLatency _ => 15

/-- Is this event the SW (system-clock selector) commit write? -/
def Event.isSw : Event → Bool
  | .cfgrSw _ => true
  | _ => false

/-- Is this event the HPRE (core-bus divider) commit write? -/
def Event.isHpre : Event → Bool
  | .cfgrHpre _ => true
  | _ => false

/-- Is this event the flash wait-state (ACR latency) write? -/
def Event.isAcr : Event → Bool
  | .acrLatency _ => true
  | _ => false

/-- The state threaded through the freeze sequence: tracked hardware state,
the trace of register writes performed so far (in program order), and the
`Clocks` record under construction (`let mut clocks` in `freeze`). -/
structure St where
  hw : Hw
  tr : List Event
  clocks : Clocks
  deriving DecidableEq, Repr

/-- Record one register write. -/
def St.emit (s : St) (e : Event) : St :=
  { s with tr := s.tr ++ [e] }

/-- hse.rs `HseConfig::freeze`: whole-register write of CR setting HSEON
(and HSEBYP when bypassing), busy-wait on HSERDY, then a `cr.modify`
setting CSSON when clock security is requested; returns the speed. -/
def HseConfig.freeze (h : HseConfig) (s : St) : St × Nat :=
  let s1 := ({ s with hw := { s.hw with cr := { Cr.resetValue with
    hseon := true
    hsebyp := decide (h.bypass = CrystalBypass.Enable) } } }).emit .crWrite
  -- busy-wait on HSERDY: idealised
  if h.css = ClockSecuritySystem.Enable then
    (({ s1 with hw := { s1.hw with
        cr := { s1.hw.cr with csson := true } } }).emit .crModify, h.speed)
  else (s1, h.speed)

/-- msi.rs `MsiFreq::freeze`: `cr.modify` setting MSIRANGE, MSIRGSEL and
MSION (and MSIPLLEN when calibrating against the LSE), then busy-wait on
MSIRDY. -/
def MsiFreq.freeze (m : MsiFreq) (useLseCalibration : Bool) (s : St) : St :=
  let cr := { s.hw.cr with
    msirange := m.index
    msirgsel := true
    msion := true
    msipllen := if useLseCalibration then true else s.hw.cr.msipllen }
  ({ s with hw := { s.hw with cr := cr } }).emit .crModify

/-- pll.rs `PllConfig::freeze`, validation part: the chain of `assert!`s on
the VCO input, VCO output and final output frequencies, returning the
output frequency.  The division by `in_div` panics in Rust when `in_div`
is zero, modelled by the explicit guard. -/
def PllConfig.freezeCalc (p : PllConfig) (clock_freq : Nat) : Except Err Nat :=
  if p.in_div = 0 then .error .pllDivByZero
  else
    let source_freq := clock_freq / p.in_div
    if source_freq < 4000000 then .error .pllVcoInLow
    else if 16000000 < source_freq then .error .pllVcoInHigh
    else
      let vco_freq := source_freq * p.out_mul
      if vco_freq < 64000000 then .error .pllVcoOutLow
      else if 344000000 < vco_freq then .error .pllVcoOutHigh
      else
        let out_clock := vco_freq / p.out_div.divFactor
        if MAX_CLOCK_SPEED < out_clock then .error .pllOverMax
        else if out_clock ≠ p.target_freq then .error .pllTargetMismatch
        else .ok out_clock

/-- hclk.rs `HclkConfig::freeze`: resolve the divider from the ratio and
write the HPRE bits; returns the configured frequency. -/
def HclkConfig.freeze (h : HclkConfig) (sysclkFreq : Nat) (s : St) :
    St × Except Err Nat :=
  match HclkDivider.fromFreqs sysclkFreq h.freq with
  | .error e => (s, .error e)
  | .ok d => (s.emit (.cfgrHpre d.bits), .ok h.freq)

/-- pclk.rs `freeze` as generated by `pclk_config!`: resolve the prescaler,
write the PPRE bits (the register field, i.e. the event constructor, is the
macro parameter), and return the bus and timer frequencies; the timer
frequency is doubled when the bus is divided. -/
def PclkConfig.freezeWith (p : PclkConfig) (mkEv : Nat → Event)
    (hclkFreq : Nat) (s : St) : St × Except Err (Nat × Nat) :=
  match Prescaler.fromFreqs hclkFreq p.freq with
  | .error e => (s, .error e)
  | .ok d =>
    let s := s.emit (mkEv d.bits)
    let timclkFreq := if d = Prescaler.Div1 then p.freq else 2 * p.freq
    (s, .ok (p.freq, timclkFreq))

/-- cfgr.rs `reset_clocks`, first half: re-enable the MSI at its 4 MHz
default when it is off. -/
def reset_clocks_msi (s : St) : St :=
  if s.hw.cr.msion = false then
    ({ s with hw := { s.hw with cr := { s.hw.cr with
        msirgsel := true, msirange := 6, msipllen := false,
        msion := true } } }).emit .crModify
  else s

/-- cfgr.rs `reset_clocks`, second half: reset the CFGR register (switching
back to the MSI) when the system clock is not currently the MSI. -/
def reset_clocks_sws (s : St) : St :=
  if s.hw.sws ≠ 0 then
    ({ s with hw := { s.hw with sws := 0 } }).emit .cfgrReset
  else s

/-- cfgr.rs `reset_clocks`. -/
def reset_clocks (s : St) : St :=
  reset_clocks_sws (reset_clocks_msi s)

/-- cfgr.rs `CFGR::setup_lsi`. -/
def CFGR.setup_lsi (c : CFGR) (s : St) : St :=
  if c.lsi_on then
    let s1 := s.emit .csrLsion
    { s1 with clocks := { s1.clocks with lsi := true } }
  else s

/-- cfgr.rs `CFGR::setup_lse`: unlock the backup domain, enable the LSE
(one `bdcr.modify` setting LSEON and bypass/drive), busy-wait on LSERDY,
then — only after the oscillator is ready — check the clock-security
prerequisite, panicking when the LSI is not enabled, and otherwise set
LSECSSON and LSECSSIE. -/
def CFGR.setup_lse (c : CFGR) (s : St) : St × Except Err Unit :=
  match c.lse with
  | none => (s, .ok ())
  | some lseCfg =>
    let s1 := (s.emit .pwrDbp).emit (.bdcrLse lseCfg.bypass)
    -- busy-wait on LSERDY: idealised
    if lseCfg.css = ClockSecuritySystem.Enable then
      if c.lsi_on = false then
        (s1, .error .lseCssWithoutLsi)
      else
        let s2 := (s1.emit .bdcrLsecsson).emit .cierLsecssie
        ({ s2 with clocks := { s2.clocks with lse := true } }, .ok ())
    else
      ({ s1 with clocks := { s1.clocks with lse := true } }, .ok ())

/-- cfgr.rs `CFGR::setup_hse`. -/
def CFGR.setup_hse (c : CFGR) (s : St) : St :=
  match c.hse with
  | none => s
  | some h =>
    let res := h.freeze s
    { res.1 with clocks := { res.1.clocks with hse := some res.2 } }

/-- cfgr.rs `CFGR::setup_hsi48`. -/
def CFGR.setup_hsi48 (c : CFGR) (s : St) : St :=
  if c.hsi48_on then
    let s1 := s.emit .crrcrHsi48on
    { s1 with clocks := { s1.clocks with hsi48 := true } }
  else s

/-- cfgr.rs `CFGR::setup_hsi16`: a whole-register `cr.write` setting only
HSION, then busy-wait on HSIRDY.  Note that it records nothing in the
`Clocks` record (the Rust parameter `_clocks` is unused). -/
def CFGR.setup_hsi16 (c : CFGR) (s : St) : St :=
  if c.hsi16_on then
    ({ s with hw := { s.hw with cr := { Cr.resetValue with hsion := true } } }).emit .crWrite
  else s

/-- pll.rs `PllConfig::freeze`, input resolution: the match on
`self.source`, with one `expect` per source that was selected as PLL input
but never enabled (the HSI16 branch reads the fixed constant without
checking the enable flag, exactly as the source does). -/
def CFGR.pllClockFreq (c : CFGR) (p : PllConfig) : Except Err Nat :=
  match p.source with
  | .HSE =>
    match c.hse with
    | some h => .ok h.speed
    | none => .error .pllHseMissing
  | .HSI16 => .ok HSI16_FREQ
  | .MSI =>
    match c.msi with
    | some m => .ok m.toHertz
    | none => .error .pllMsiMissing

/-- pll.rs `PllConfig::freeze`: resolve the input frequency from the
selected source (failing when that source is not enabled), validate via
`freezeCalc`, then write PLLCFGR, set PLLON, busy-wait on PLLRDY and set
PLLREN. -/
def CFGR.setup_pll (c : CFGR) (s : St) : St × Except Err Unit :=
  match c.pll with
  | none => (s, .ok ())
  | some p =>
    match c.pllClockFreq p with
    | .error e => (s, .error e)
    | .ok f =>
      match p.freezeCalc f with
      | .error e => (s, .error e)
      | .ok out =>
        let s1 := s.emit (.pllcfgr p.source.sourceBits (p.in_div - 1)
          p.out_div.bits p.out_mul)
        let s2 := ({ s1 with
          hw := { s1.hw with cr := { s1.hw.cr with pllon := true } } }).emit .crModify
        -- busy-wait on PLLRDY: idealised
        let s3 := s2.emit .pllcfgrPllren
        ({ s3 with clocks := { s3.clocks with pll := some out } }, .ok ())

/-- cfgr.rs `CFGR::create_sysclk_config`: the explicit selection if there
is one, else the configured MSI, else fatal. -/
def CFGR.create_sysclk_config (c : CFGR) : Except Err SysclkConfig :=
  match c.sysclk with
  | some sysclkCfg => .ok sysclkCfg
  | none =>
    match c.msi with
    | some m => .ok { speed := m.toHertz, source_clock := .MSI }
    | none => .error .noSysclkConfig

/-- cfgr.rs `CFGR::setup_sysclk`, source-speed derivation: the match on
`config.source_clock`, with one `expect`/`panic!` per source that was
selected but never enabled. -/
def CFGR.sysclkSourceSpeed (c : CFGR) (src : SysclkSource) : Except Err Nat :=
  match src with
  | .HSE =>
    match c.hse with
    | some h => .ok h.speed
    | none => .error .sysclkHseMissing
  | .HSI16 =>
    if c.hsi16_on then .ok HSI16_FREQ else .error .sysclkHsi16Missing
  | .MSI =>
    match c.msi with
    | some m => .ok m.toHertz
    | none => .error .sysclkMsiMissing
  | .PLL =>
    match c.pll with
    | some p => .ok p.speed
    | none => .error .sysclkPllMissing

/-- cfgr.rs `CFGR::setup_sysclk`: derive the actual source speed, assert it
equals the declared speed, write the SW bits, busy-wait until SWS reports
the switch, and record the system-clock frequency. -/
def CFGR.setup_sysclk (c : CFGR) (cfg : SysclkConfig) (s : St) :
    St × Except Err Unit :=
  match c.sysclkSourceSpeed cfg.source_clock with
  | .error e => (s, .error e)
  | .ok sourceSpeed =>
    if sourceSpeed ≠ cfg.speed then (s, .error .sysclkSpeedMismatch)
    else
      let s1 := s.emit (.cfgrSw cfg.source_clock.bits)
      -- busy-wait until SWS reports the switch: idealised
      let s2 := { s1 with hw := { s1.hw with sws := cfg.source_clock.bits } }
      ({ s2 with clocks := { s2.clocks with sysclk := cfg.speed } }, .ok ())

/-- cfgr.rs `CFGR::create_hclk_config`: the requested configuration or the
system-clock speed as default. -/
def CFGR.create_hclk_config (c : CFGR) (sysclkCfg : SysclkConfig) : HclkConfig :=
  match c.hclk with
  | some config => config
  | none => { freq := sysclkCfg.speed }

/-- cfgr.rs `CFGR::setup_hclk`: record the core-bus frequency, then commit
the divider (which may panic on an unsupported ratio). -/
def CFGR.setup_hclk (hclk : HclkConfig) (sysclkCfg : SysclkConfig) (s : St) :
    St × Except Err Unit :=
  let s1 : St := { s with clocks := { s.clocks with hclk := hclk.freq } }
  match hclk.freeze sysclkCfg.speed s1 with
  | (s2, .error e) => (s2, .error e)
  | (s2, .ok _) => (s2, .ok ())

/-- cfgr.rs `CFGR::setup_periph_clocks`: each peripheral bus uses its
requested configuration or defaults to the core-bus frequency. -/
def CFGR.setup_periph_clocks (c : CFGR) (hclk : HclkConfig) (s : St) :
    St × Except Err Unit :=
  match (c.pclk1.getD { freq := hclk.freq }).freezeWith Event.cfgrPpre1 hclk.freq s with
  | (s1, .error e) => (s1, .error e)
  | (s1, .ok (f1, t1)) =>
    let s2 : St := { s1 with clocks := { s1.clocks with pclk1 := f1, timclk1 := t1 } }
    match (c.pclk2.getD { freq := hclk.freq }).freezeWith Event.cfgrPpre2 hclk.freq s2 with
    | (s3, .error e) => (s3, .error e)
    | (s3, .ok (f2, t2)) =>
      ({ s3 with clocks := { s3.clocks with pclk2 := f2, timclk2 := t2 } }, .ok ())

/-- cfgr.rs `CFGR::adjust_flash_wait_states`, the latency table keyed on
the core-bus frequency. -/
def flashLatency (hclkFreq : Nat) : Nat :=
  if hclkFreq ≤ 16000000 then 0b000
  else if hclkFreq ≤ 32000000 then 0b001
  else if hclkFreq ≤ 48000000 then 0b010
  else if hclkFreq ≤ 64000000 then 0b011
  else 0b100

/-- cfgr.rs `CFGR::adjust_flash_wait_states`: the single ACR write. -/
def CFGR.adjust_flash_wait_states (hclk : HclkConfig) (s : St) : St :=
  s.emit (.acrLatency (flashLatency hclk.freq))

/-- cfgr.rs `CFGR::configure_msi`: commit the MSI range (calibrating
against the LSE when one is configured) and record it. -/
def CFGR.configure_msi (c : CFGR) (s : St) : St :=
  match c.msi with
  | none => s
  | some m =>
    let s := m.freeze c.lse.isSome s
    { s with clocks := { s.clocks with msi := some m } }

/-- cfgr.rs `CFGR::clean_msi`: disable the bootstrap MSI when no MSI
configuration was requested. -/
def CFGR.clean_msi (c : CFGR) (s : St) : St :=
  match c.msi with
  | some _ => s
  | none =>
    ({ s with hw := { s.hw with cr := { s.hw.cr with
        msion := false, msipllen := false } } }).emit .crModify

/-- cfgr.rs `CFGR::freeze`: the fixed linear phase sequence.  The returned
pair is the final state (hardware, trace of writes, `Clocks` under
construction) and either the frozen `Clocks` record or the failure that
aborted the sequence (the state records everything done up to the abort). -/
def CFGR.freeze (c : CFGR) (hw0 : Hw) : St × Except Err Clocks :=
  let s := reset_clocks { hw := hw0, tr := [], clocks := Clocks.default }
  let s := c.setup_lsi s
  match c.setup_lse s with
  | (s, .error e) => (s, .error e)
  | (s, .ok _) =>
  let s := c.setup_hse s
  let s := c.setup_hsi48 s
  let s := c.setup_hsi16 s
  match c.setup_pll s with
  | (s, .error e) => (s, .error e)
  | (s, .ok _) =>
  match c.create_sysclk_config with
  | .error e => (s, .error e)
  | .ok sysclkCfg =>
  let hclkCfg := c.create_hclk_config sysclkCfg
  match c.setup_periph_clocks hclkCfg s with
  | (s, .error e) => (s, .error e)
  | (s, .ok _) =>
  let s := CFGR.adjust_flash_wait_states hclkCfg s
  let s := c.configure_msi s
  match c.setup_sysclk sysclkCfg s with
  | (s, .error e) => (s, .error e)
  | (s, .ok _) =>
  match CFGR.setup_hclk hclkCfg sysclkCfg s with
  | (s, .error e) => (s, .error e)
  | (s, .ok _) =>
  let s := c.clean_msi s
  (s, .ok s.clocks)

/-- Did the computation succeed? -/
def rOk {α : Type} : Except Err α → Bool
  | .ok _ => true
  | .error _ => false

/-- Every `P`-event of the trace occurs strictly before every `Q`-event. -/
def precedes (P Q : Event → Bool) (tr : List Event) : Prop :=
  ∀ i j, (hi : i < tr.length) → (hj : j < tr.length) →
    P (tr.get ⟨i, hi⟩) = true → Q (tr.get ⟨j, hj⟩) = true → i < j

/-- `s'` extends the trace of `s` with events whose tags all lie in `L`. -/
def TrExt (L : List Nat) (s s' : St) : Prop :=
  ∃ l, s'.tr = s.tr ++ l ∧ ∀ e ∈ l, e.tag ∈ L

end Rcc

namespace Rcc

/-! ### General helper lemmas -/

theorem precedes_append {P Q : Event → Bool} {A B : List Event}
    (hA : ∀ e ∈ A, Q e = false) (hB : ∀ e ∈ B, P e = false) :
    precedes P Q (A ++ B) := by
  intro i j hi hj hP hQ
  have hiA : i < A.length := by
    by_contra hc
    push_neg at hc
    have hlen : i - A.length < B.length := by
      have h2 := hi
      rw [List.length_append] at h2
      omega
    have hget : (A ++ B).get ⟨i, hi⟩ = B.get ⟨i - A.length, hlen⟩ :=
      List.get_append_right A B hc
    have hmem : (A ++ B).get ⟨i, hi⟩ ∈ B := by
      rw [hget]
      exact List.get_mem _ _ _
    rw [hB _ hmem] at hP
    exact Bool.false_ne_true hP
  have hjB : A.length ≤ j := by
    by_contra hc
    push_neg at hc
    have hget : (A ++ B).get ⟨j, hj⟩ = A.get ⟨j, hc⟩ := List.get_append j hc
    have hmem : (A ++ B).get ⟨j, hj⟩ ∈ A := by
      rw [hget]
      exact List.get_mem _ _ _
    rw [hA _ hmem] at hQ
    exact Bool.false_ne_true hQ
  omega

theorem TrExt.trans {L : List Nat} {s s' s'' : St}
    (h1 : TrExt L s s') (h2 : TrExt L s' s'') : TrExt L s s'' := by
  obtain ⟨l1, e1, t1⟩ := h1
  obtain ⟨l2, e2, t2⟩ := h2
  refine ⟨l1 ++ l2, ?_, ?_⟩
  · rw [e2, e1, List.append_assoc]
  · intro e he
    rcases List.mem_append.mp he with h | h
    · exact t1 e h
    · exact t2 e h

theorem TrExt.mono {L L' : List Nat} {s s' : St} (hsub : ∀ x ∈ L, x ∈ L')
    (h : TrExt L s s') : TrExt L' s s' := by
  obtain ⟨l, e1, t1⟩ := h
  exact ⟨l, e1, fun e he => hsub _ (t1 e he)⟩

theorem TrExt.not_mem {L : List Nat} {s s' : St} (h : TrExt L s s')
    (e : Event) (he : e.tag ∉ L) : e ∈ s'.tr → e ∈ s.tr := by
  obtain ⟨l, e1, t1⟩ := h
  intro hmem
  rw [e1] at hmem
  rcases List.mem_append.mp hmem with h | h
  · exact h
  · exact absurd (t1 e h) he

theorem TrExt.of_eq {L : List Nat} {s s' : St} (h : s'.tr = s.tr) :
    TrExt L s s' := ⟨[], by simp [h], by simp⟩

/-! ### Phase lemmas: which events each phase can emit -/

theorem reset_clocks_msi_ext (s : St) : TrExt [6, 10] s (reset_clocks_msi s) := by
  simp only [reset_clocks_msi]
  split
  · exact ⟨[.crModify], by simp [St.emit], by simp [Event.tag]⟩
  · exact ⟨[], by simp, by simp⟩

theorem reset_clocks_sws_ext (s : St) : TrExt [6, 10] s (reset_clocks_sws s) := by
  simp only [reset_clocks_sws]
  split
  · exact ⟨[.cfgrReset], by simp [St.emit], by simp [Event.tag]⟩
  · exact ⟨[], by simp, by simp⟩

theorem reset_clocks_ext (s : St) : TrExt [6, 10] s (reset_clocks s) :=
  TrExt.trans (reset_clocks_msi_ext s) (reset_clocks_sws_ext _)

theorem setup_lsi_ext (c : CFGR) (s : St) : TrExt [0] s (c.setup_lsi s) := by
  simp only [CFGR.setup_lsi]
  split
  · exact ⟨[.csrLsion], by simp [St.emit], by simp [Event.tag]⟩
  · exact ⟨[], by simp, by simp⟩

theorem setup_lse_ext (c : CFGR) (s : St) :
    TrExt [1, 2, 3, 4] s (c.setup_lse s).1 := by
  simp only [CFGR.setup_lse]
  split
  · exact ⟨[], by simp, by simp⟩
  · rename_i lseCfg heq
    split
    · split
      · exact ⟨[.pwrDbp, .bdcrLse lseCfg.bypass],
          by simp [St.emit], by simp [Event.tag]⟩
      · exact ⟨[.pwrDbp, .bdcrLse lseCfg.bypass, .bdcrLsecsson, .cierLsecssie],
          by simp [St.emit], by simp [Event.tag]⟩
    · exact ⟨[.pwrDbp, .bdcrLse lseCfg.bypass],
        by simp [St.emit], by simp [Event.tag]⟩

theorem setup_hse_ext (c : CFGR) (s : St) : TrExt [5, 6] s (c.setup_hse s) := by
  simp only [CFGR.setup_hse, HseConfig.freeze]
  split
  · exact ⟨[], by simp, by simp⟩
  · split
    · exact ⟨[.crWrite, .crModify], by simp [St.emit], by simp [Event.tag]⟩
    · exact ⟨[.crWrite], by simp [St.emit], by simp [Event.tag]⟩

theorem setup_hsi48_ext (c : CFGR) (s : St) : TrExt [7] s (c.setup_hsi48 s) := by
  simp only [CFGR.setup_hsi48]
  split
  · exact ⟨[.crrcrHsi48on], by simp [St.emit], by simp [Event.tag]⟩
  · exact ⟨[], by simp, by simp⟩

theorem setup_hsi16_ext (c : CFGR) (s : St) : TrExt [5] s (c.setup_hsi16 s) := by
  simp only [CFGR.setup_hsi16]
  split
  · exact ⟨[.crWrite], by simp [St.emit], by simp [Event.tag]⟩
  · exact ⟨[], by simp, by simp⟩

theorem setup_pll_ext (c : CFGR) (s : St) :
    TrExt [8, 6, 9] s (c.setup_pll s).1 := by
  simp only [CFGR.setup_pll]
  split
  · exact ⟨[], by simp, by simp⟩
  · rename_i p heq
    split
    · exact ⟨[], by simp, by simp⟩
    · split
      · exact ⟨[], by simp, by simp⟩
      · exact ⟨[.pllcfgr p.source.sourceBits (p.in_div - 1) p.out_div.bits p.out_mul,
          .crModify, .pllcfgrPllren], by simp [St.emit], by simp [Event.tag]⟩

theorem freezeWith_ppre1_ext (p : PclkConfig) (f : Nat) (s : St) :
    TrExt [13] s (p.freezeWith Event.cfgrPpre1 f s).1 := by
  simp only [PclkConfig.freezeWith]
  split
  · exact ⟨[], by simp, by simp⟩
  · rename_i d heq
    exact ⟨[.cfgrPpre1 d.bits], by simp [St.emit], by simp [Event.tag]⟩

theorem freezeWith_ppre2_ext (p : PclkConfig) (f : Nat) (s : St) :
    TrExt [14] s (p.freezeWith Event.cfgrPpre2 f s).1 := by
  simp only [PclkConfig.freezeWith]
  split
  · exact ⟨[], by simp, by simp⟩
  · rename_i d heq
    exact ⟨[.cfgrPpre2 d.bits], by simp [St.emit], by simp [Event.tag]⟩

theorem setup_periph_ext (c : CFGR) (h : HclkConfig) (s : St) :
    TrExt [13, 14] s (c.setup_periph_clocks h s).1 := by
  simp only [CFGR.setup_periph_clocks]
  split
  · rename_i s' e heq
    have h1 := freezeWith_ppre1_ext (c.pclk1.getD { freq := h.freq }) h.freq s
    rw [heq] at h1
    exact h1.mono (by simp)
  · rename_i s' f1 t1 heq
    have h1 := freezeWith_ppre1_ext (c.pclk1.getD { freq := h.freq }) h.freq s
    rw [heq] at h1
    have h1' : TrExt [13, 14] s
        { s' with clocks := { s'.clocks with pclk1 := f1, timclk1 := t1 } } :=
      TrExt.trans (h1.mono (by simp)) (TrExt.of_eq rfl)
    split
    · rename_i s'' e heq2
      have h2 := freezeWith_ppre2_ext (c.pclk2.getD { freq := h.freq }) h.freq
        { s' with clocks := { s'.clocks with pclk1 := f1, timclk1 := t1 } }
      rw [heq2] at h2
      exact TrExt.trans h1' (h2.mono (by simp))
    · rename_i s'' f2 t2 heq2
      have h2 := freezeWith_ppre2_ext (c.pclk2.getD { freq := h.freq }) h.freq
        { s' with clocks := { s'.clocks with pclk1 := f1, timclk1 := t1 } }
      rw [heq2] at h2
      exact TrExt.trans h1'
        (TrExt.trans (h2.mono (by simp)) (TrExt.of_eq rfl))

theorem adjust_flash_tr (h : HclkConfig) (s : St) :
    (CFGR.adjust_flash_wait_states h s).tr
      = s.tr ++ [.acrLatency (flashLatency h.freq)] := rfl

theorem configure_msi_ext (c : CFGR) (s : St) :
    TrExt [6] s (c.configure_msi s) := by
  simp only [CFGR.configure_msi, MsiFreq.freeze]
  split
  · exact ⟨[], by simp, by simp⟩
  · exact ⟨[.crModify], by simp [St.emit], by simp [Event.tag]⟩

theorem setup_sysclk_ext (c : CFGR) (cfg : SysclkConfig) (s : St) :
    TrExt [11] s (c.setup_sysclk cfg s).1 := by
  simp only [CFGR.setup_sysclk]
  split
  · exact ⟨[], by simp, by simp⟩
  · split
    · exact ⟨[], by simp, by simp⟩
    · exact ⟨[.cfgrSw cfg.source_clock.bits], by simp [St.emit], by simp [Event.tag]⟩

theorem setup_sysclk_ok_tr (c : CFGR) (cfg : SysclkConfig) (s s' : St)
    (u : Unit) (h : c.setup_sysclk cfg s = (s', .ok u)) :
    s'.tr = s.tr ++ [.cfgrSw cfg.source_clock.bits] := by
  simp only [CFGR.setup_sysclk] at h
  split at h
  · exact absurd h (by simp)
  · split at h
    · exact absurd h (by simp)
    · cases h
      simp [St.emit]

theorem setup_hclk_ext (h : HclkConfig) (cfg : SysclkConfig) (s : St) :
    TrExt [12] s (CFGR.setup_hclk h cfg s).1 := by
  simp only [CFGR.setup_hclk, HclkConfig.freeze]
  split
  · rename_i heq
    split at heq
    · cases heq
      exact ⟨[], by simp, by simp⟩
    · exact absurd heq (by simp)
  · rename_i heq
    split at heq
    · exact absurd heq (by simp)
    · rename_i d hd
      cases heq
      exact ⟨[.cfgrHpre d.bits], by simp [St.emit], by simp [Event.tag]⟩

theorem setup_hclk_ok_tr (h : HclkConfig) (cfg : SysclkConfig) (s s' : St)
    (u : Unit) (hok : CFGR.setup_hclk h cfg s = (s', .ok u)) :
    ∃ b, s'.tr = s.tr ++ [.cfgrHpre b] := by
  simp only [CFGR.setup_hclk, HclkConfig.freeze] at hok
  split at hok
  · rename_i heq
    split at heq
    · cases heq
      exact absurd hok (by simp)
    · exact absurd heq (by simp)
  · rename_i heq
    split at heq
    · exact absurd heq (by simp)
    · rename_i d hd
      cases heq
      cases hok
      exact ⟨d.bits, by simp [St.emit]⟩

theorem clean_msi_ext (c : CFGR) (s : St) : TrExt [6] s (c.clean_msi s) := by
  simp only [CFGR.clean_msi]
  split
  · exact ⟨[], by simp, by simp⟩
  · exact ⟨[.crModify], by simp [St.emit], by simp [Event.tag]⟩

/-! ### Phase lemmas: effect on the `Clocks` record under construction -/

theorem reset_clocks_clocks (s : St) : (reset_clocks s).clocks = s.clocks := by
  simp only [reset_clocks, reset_clocks_msi, reset_clocks_sws]
  split <;> split <;> simp [St.emit]

theorem setup_lsi_clocks (c : CFGR) (s : St) :
    (c.setup_lsi s).clocks.msi = s.clocks.msi
      ∧ (c.setup_lsi s).clocks.hclk = s.clocks.hclk := by
  simp only [CFGR.setup_lsi]
  split <;> simp [St.emit]

theorem setup_lse_clocks (c : CFGR) (s : St) :
    (c.setup_lse s).1.clocks.msi = s.clocks.msi
      ∧ (c.setup_lse s).1.clocks.hclk = s.clocks.hclk := by
  simp only [CFGR.setup_lse]
  split
  · simp
  · split
    · split <;> simp [St.emit]
    · simp [St.emit]

theorem setup_hse_clocks (c : CFGR) (s : St) :
    (c.setup_hse s).clocks.msi = s.clocks.msi
      ∧ (c.setup_hse s).clocks.hclk = s.clocks.hclk := by
  simp only [CFGR.setup_hse, HseConfig.freeze]
  split
  · simp
  · split <;> simp [St.emit]

theorem setup_hsi48_clocks (c : CFGR) (s : St) :
    (c.setup_hsi48 s).clocks.msi = s.clocks.msi
      ∧ (c.setup_hsi48 s).clocks.hclk = s.clocks.hclk := by
  simp only [CFGR.setup_hsi48]
  split <;> simp [St.emit]

theorem setup_hsi16_clocks (c : CFGR) (s : St) :
    (c.setup_hsi16 s).clocks = s.clocks := by
  simp only [CFGR.setup_hsi16]
  split <;> simp [St.emit]

theorem setup_pll_clocks (c : CFGR) (s : St) :
    (c.setup_pll s).1.clocks.msi = s.clocks.msi
      ∧ (c.setup_pll s).1.clocks.hclk = s.clocks.hclk := by
  simp only [CFGR.setup_pll]
  split
  · simp
  · split
    · simp
    · split <;> simp [St.emit]

theorem freezeWith_clocks (p : PclkConfig) (mkEv : Nat → Event) (f : Nat)
    (s : St) : (p.freezeWith mkEv f s).1.clocks = s.clocks := by
  simp only [PclkConfig.freezeWith]
  split <;> simp [St.emit]

theorem setup_periph_clocks_clocks (c : CFGR) (h : HclkConfig) (s : St) :
    (c.setup_periph_clocks h s).1.clocks.msi = s.clocks.msi
      ∧ (c.setup_periph_clocks h s).1.clocks.hclk = s.clocks.hclk := by
  simp only [CFGR.setup_periph_clocks]
  split
  · rename_i s1 e heq
    have h1 : s1.clocks = s.clocks := by
      have hx := freezeWith_clocks (c.pclk1.getD { freq := h.freq })
        Event.cfgrPpre1 h.freq s
      rw [heq] at hx
      simpa using hx
    simp [h1]
  · rename_i s1 f1 t1 heq
    have h1 : s1.clocks = s.clocks := by
      have hx := freezeWith_clocks (c.pclk1.getD { freq := h.freq })
        Event.cfgrPpre1 h.freq s
      rw [heq] at hx
      simpa using hx
    split
    · rename_i s2 e heq2
      have h2 : s2.clocks
          = { s1.clocks with pclk1 := f1, timclk1 := t1 } := by
        have hx := freezeWith_clocks (c.pclk2.getD { freq := h.freq })
          Event.cfgrPpre2 h.freq
          { s1 with clocks := { s1.clocks with pclk1 := f1, timclk1 := t1 } }
        rw [heq2] at hx
        simpa using hx
      simp [h2, h1]
    · rename_i s2 f2 t2 heq2
      have h2 : s2.clocks
          = { s1.clocks with pclk1 := f1, timclk1 := t1 } := by
        have hx := freezeWith_clocks (c.pclk2.getD { freq := h.freq })
          Event.cfgrPpre2 h.freq
          { s1 with clocks := { s1.clocks with pclk1 := f1, timclk1 := t1 } }
        rw [heq2] at hx
        simpa using hx
      simp [h2, h1]

theorem adjust_flash_clocks (h : HclkConfig) (s : St) :
    (CFGR.adjust_flash_wait_states h s).clocks = s.clocks := rfl

theorem configure_msi_none (c : CFGR) (s : St) (h : c.msi = none) :
    c.configure_msi s = s := by
  simp only [CFGR.configure_msi, h]

theorem setup_sysclk_clocks (c : CFGR) (cfg : SysclkConfig) (s : St) :
    (c.setup_sysclk cfg s).1.clocks.msi = s.clocks.msi
      ∧ (c.setup_sysclk cfg s).1.clocks.hclk = s.clocks.hclk := by
  simp only [CFGR.setup_sysclk]
  split
  · simp
  · split <;> simp [St.emit]

theorem setup_hclk_clocks (h : HclkConfig) (cfg : SysclkConfig) (s : St) :
    (CFGR.setup_hclk h cfg s).1.clocks.msi = s.clocks.msi
      ∧ (CFGR.setup_hclk h cfg s).1.clocks.hclk = h.freq := by
  simp only [CFGR.setup_hclk, HclkConfig.freeze]
  split
  · rename_i heq
    split at heq <;> cases heq <;> simp [St.emit]
  · rename_i heq
    split at heq <;> cases heq <;> simp [St.emit]

theorem clean_msi_clocks (c : CFGR) (s : St) :
    (c.clean_msi s).clocks = s.clocks := by
  simp only [CFGR.clean_msi]
  split <;> simp [St.emit]

theorem clean_msi_none_msion (c : CFGR) (s : St) (h : c.msi = none) :
    (c.clean_msi s).hw.cr.msion = false := by
  simp only [CFGR.clean_msi, h]
  simp [St.emit]

/-! ### The shape of a successful freeze run -/

/-- On every successful freeze, the trace decomposes into the events before
the flash-latency write (none of which is an SW, HPRE or ACR write), the
single ACR write (whose value is the latency table applied to the resolved
core-bus frequency), the MSI-configuration events, the single SW write, the
single HPRE write and the cleanup events; and the returned record's `hclk`
field is the resolved core-bus frequency. -/
theorem freeze_ok_shape (c : CFGR) (hw : Hw) (ck : Clocks)
    (h : (CFGR.freeze c hw).2 = .ok ck) :
    ∃ (pre lM lC : List Event) (bSw bH : Nat) (hclkCfg : HclkConfig),
      (CFGR.freeze c hw).1.tr
        = pre ++ [.acrLatency (flashLatency hclkCfg.freq)] ++ lM
            ++ [.cfgrSw bSw] ++ [.cfgrHpre bH] ++ lC
      ∧ (∀ e ∈ pre, e.tag ∈ [0, 1, 2, 3, 4, 5, 6, 7, 8, 9, 10, 13, 14])
      ∧ (∀ e ∈ lM, e.tag ∈ [6]) ∧ (∀ e ∈ lC, e.tag ∈ [6])
      ∧ ck.hclk = hclkCfg.freq := by
  rcases hfz : CFGR.freeze c hw with ⟨st, r⟩
  rw [hfz] at h
  simp only at h
  subst h
  simp only [CFGR.freeze] at hfz
  split at hfz
  · exact absurd hfz (by simp)
  · rename_i s3 u3 heqLse
    split at hfz
    · exact absurd hfz (by simp)
    · rename_i s4 u4 heqPll
      split at hfz
      · exact absurd hfz (by simp)
      · rename_i sysclkCfg heqSc
        split at hfz
        · exact absurd hfz (by simp)
        · rename_i s5 u5 heqPer
          split at hfz
          · exact absurd hfz (by simp)
          · rename_i s8 u8 heqSys
            split at hfz
            · exact absurd hfz (by simp)
            · rename_i s9 u9 heqHclk
              have hst : st = c.clean_msi s9 := by
                cases hfz
                rfl
              have hck : ck = (c.clean_msi s9).clocks := by
                cases hfz
                rfl
              -- trace of the pre-flash phases
              have hext : TrExt [0, 1, 2, 3, 4, 5, 6, 7, 8, 9, 10, 13, 14]
                  { hw := hw, tr := [], clocks := Clocks.default } s5 := by
                have t1 : TrExt [0, 1, 2, 3, 4, 5, 6, 7, 8, 9, 10, 13, 14]
                    { hw := hw, tr := [], clocks := Clocks.default }
                    (reset_clocks { hw := hw, tr := [], clocks := Clocks.default }) :=
                  TrExt.mono (by simp) (reset_clocks_ext _)
                have t2 : TrExt [0, 1, 2, 3, 4, 5, 6, 7, 8, 9, 10, 13, 14]
                    (reset_clocks { hw := hw, tr := [], clocks := Clocks.default })
                    (c.setup_lsi (reset_clocks
                      { hw := hw, tr := [], clocks := Clocks.default })) :=
                  TrExt.mono (by simp) (setup_lsi_ext c _)
                have t3 : TrExt [0, 1, 2, 3, 4, 5, 6, 7, 8, 9, 10, 13, 14]
                    (c.setup_lsi (reset_clocks
                      { hw := hw, tr := [], clocks := Clocks.default })) s3 := by
                  have hx := setup_lse_ext c (c.setup_lsi (reset_clocks
                    { hw := hw, tr := [], clocks := Clocks.default }))
                  rw [heqLse] at hx
                  exact TrExt.mono (by simp) hx
                have t4 : TrExt [0, 1, 2, 3, 4, 5, 6, 7, 8, 9, 10, 13, 14]
                    s3 (c.setup_hse s3) :=
                  TrExt.mono (by simp) (setup_hse_ext c s3)
                have t5 : TrExt [0, 1, 2, 3, 4, 5, 6, 7, 8, 9, 10, 13, 14]
                    (c.setup_hse s3) (c.setup_hsi48 (c.setup_hse s3)) :=
                  TrExt.mono (by simp) (setup_hsi48_ext c _)
                have t6 : TrExt [0, 1, 2, 3, 4, 5, 6, 7, 8, 9, 10, 13, 14]
                    (c.setup_hsi48 (c.setup_hse s3))
                    (c.setup_hsi16 (c.setup_hsi48 (c.setup_hse s3))) :=
                  TrExt.mono (by simp) (setup_hsi16_ext c _)
                have t7 : TrExt [0, 1, 2, 3, 4, 5, 6, 7, 8, 9, 10, 13, 14]
                    (c.setup_hsi16 (c.setup_hsi48 (c.setup_hse s3))) s4 := by
                  have hx := setup_pll_ext c
                    (c.setup_hsi16 (c.setup_hsi48 (c.setup_hse s3)))
                  rw [heqPll] at hx
                  exact TrExt.mono (by simp) hx
                have t8 : TrExt [0, 1, 2, 3, 4, 5, 6, 7, 8, 9, 10, 13, 14]
                    s4 s5 := by
                  have hx := setup_periph_ext c (c.create_hclk_config sysclkCfg) s4
                  rw [heqPer] at hx
                  exact TrExt.mono (by simp) hx
                exact t1.trans (t2.trans (t3.trans (t4.trans
                  (t5.trans (t6.trans (t7.trans t8))))))
              obtain ⟨pre, hpre, hpreTags⟩ := hext
              simp only [List.nil_append] at hpre
              -- the MSI-configuration extension
              obtain ⟨lM, hlM, hlMTags⟩ := configure_msi_ext c
                (CFGR.adjust_flash_wait_states (c.create_hclk_config sysclkCfg) s5)
              -- the SW write
              have hsw := setup_sysclk_ok_tr c sysclkCfg _ _ _ heqSys
              -- the HPRE write
              obtain ⟨bH, hhp⟩ := setup_hclk_ok_tr _ _ _ _ _ heqHclk
              -- the cleanup extension
              obtain ⟨lC, hlC, hlCTags⟩ := clean_msi_ext c s9
              refine ⟨pre, lM, lC, sysclkCfg.source_clock.bits, bH,
                c.create_hclk_config sysclkCfg, ?_, hpreTags, hlMTags, hlCTags, ?_⟩
              · rw [hst, hlC, hhp, hsw, hlM, adjust_flash_tr, hpre]
              · rw [hck, clean_msi_clocks]
                have h9 := (setup_hclk_clocks (c.create_hclk_config sysclkCfg)
                  sysclkCfg s8).2
                rw [heqHclk] at h9
                exact h9

/-! ### Claim C1 -/

/-- C1: for every source/target pair with nonzero target, zero remainder
and quotient among the supported steps 1, 2, 4, 8, 16, 64, 128, 256, 512,
`HclkDivider::from_ratio` returns the divider whose division factor is
exactly the quotient; every other pair (zero target, nonzero remainder,
zero quotient, or an unsupported step such as 32) fails. -/
theorem hclk_divider_resolution (s t : Nat) :
    (t ≠ 0 → s % t = 0 → s / t ∈ [1, 2, 4, 8, 16, 64, 128, 256, 512] →
      ∃ d, HclkDivider.fromFreqs s t = .ok d ∧ d.divFactor = s / t)
    ∧ (¬(t ≠ 0 ∧ s % t = 0 ∧ s / t ∈ [1, 2, 4, 8, 16, 64, 128, 256, 512]) →
      ∃ e, HclkDivider.fromFreqs s t = .error e) := by
  constructor
  · intro ht hmod hmem
    simp only [List.mem_cons, List.not_mem_nil, or_false] at hmem
    rcases hmem with h | h | h | h | h | h | h | h | h <;>
      simp [HclkDivider.fromFreqs, ht, hmod, h, HclkDivider.divFactor]
  · intro hneg
    by_cases ht : t = 0
    · exact ⟨.hclkDivByZero, by simp [HclkDivider.fromFreqs, ht]⟩
    · by_cases hmod : s % t = 0
      · have hq : s / t ∉ [1, 2, 4, 8, 16, 64, 128, 256, 512] := fun hmem =>
          hneg ⟨ht, hmod, hmem⟩
        simp only [List.mem_cons, List.not_mem_nil, or_false] at hq
        push_neg at hq
        obtain ⟨h1, h2, h4, h8, h16, h64, h128, h256, h512⟩ := hq
        by_cases hq0 : s / t = 0
        · exact ⟨.hclkZeroRatio, by simp [HclkDivider.fromFreqs, ht, hmod, hq0]⟩
        · exact ⟨.hclkUnsupportedStep, by
            simp [HclkDivider.fromFreqs, ht, hmod, hq0, h1, h2, h4, h8, h16,
              h64, h128, h256, h512]⟩
      · exact ⟨.hclkNotDivisible, by simp [HclkDivider.fromFreqs, ht, hmod]⟩

/-- Witness for C1: 128 MHz over 1 MHz resolves to the factor-128 divider,
and a ratio of exactly 32 fails. -/
theorem hclk_divider_resolution_witness :
    (∃ d, HclkDivider.fromFreqs 128000000 1000000 = .ok d
      ∧ d.divFactor = 128000000 / 1000000)
    ∧ ∃ e, HclkDivider.fromFreqs 32000000 1000000 = .error e :=
  ⟨(hclk_divider_resolution 128000000 1000000).1 (by decide) (by decide)
      (by decide),
    (hclk_divider_resolution 32000000 1000000).2 (by decide)⟩

/-! ### Claim C2 -/

/-- C2: `PllConfig::freeze` run with its input source at frequency `f`
fails unless the VCO input `f / in_div` lies in [4 MHz, 16 MHz], the VCO
output lies in [64 MHz, 344 MHz], and the output is at most the maximum
rated clock speed and exactly the declared target; when all hold it
returns the target. -/
theorem pll_freeze_validation (p : PllConfig) (f : Nat) :
    (4000000 ≤ f / p.in_div → f / p.in_div ≤ 16000000 →
      64000000 ≤ f / p.in_div * p.out_mul →
      f / p.in_div * p.out_mul ≤ 344000000 →
      f / p.in_div * p.out_mul / p.out_div.divFactor ≤ MAX_CLOCK_SPEED →
      f / p.in_div * p.out_mul / p.out_div.divFactor = p.target_freq →
      p.freezeCalc f = .ok p.target_freq)
    ∧ (¬(4000000 ≤ f / p.in_div ∧ f / p.in_div ≤ 16000000 ∧
        64000000 ≤ f / p.in_div * p.out_mul ∧
        f / p.in_div * p.out_mul ≤ 344000000 ∧
        f / p.in_div * p.out_mul / p.out_div.divFactor ≤ MAX_CLOCK_SPEED ∧
        f / p.in_div * p.out_mul / p.out_div.divFactor = p.target_freq) →
      ∃ e, p.freezeCalc f = .error e) := by
  constructor
  · intro h1 h2 h3 h4 h5 h6
    have hind : p.in_div ≠ 0 := by
      intro h0
      rw [h0] at h1
      simp at h1
    simp only [PllConfig.freezeCalc, if_neg hind]
    rw [if_neg (Nat.not_lt.mpr h1), if_neg (Nat.not_lt.mpr h2),
      if_neg (Nat.not_lt.mpr h3), if_neg (Nat.not_lt.mpr h4),
      if_neg (Nat.not_lt.mpr h5), if_neg (fun hne => hne h6)]
    exact congrArg _ h6
  · intro hneg
    by_cases hind : p.in_div = 0
    · exact ⟨.pllDivByZero, by simp [PllConfig.freezeCalc, hind]⟩
    · simp only [PllConfig.freezeCalc, if_neg hind]
      by_cases hc1 : f / p.in_div < 4000000
      · exact ⟨.pllVcoInLow, by rw [if_pos hc1]⟩
      · rw [if_neg hc1]
        by_cases hc2 : 16000000 < f / p.in_div
        · exact ⟨.pllVcoInHigh, by rw [if_pos hc2]⟩
        · rw [if_neg hc2]
          by_cases hc3 : f / p.in_div * p.out_mul < 64000000
          · exact ⟨.pllVcoOutLow, by rw [if_pos hc3]⟩
          · rw [if_neg hc3]
            by_cases hc4 : 344000000 < f / p.in_div * p.out_mul
            · exact ⟨.pllVcoOutHigh, by rw [if_pos hc4]⟩
            · rw [if_neg hc4]
              by_cases hc5 : MAX_CLOCK_SPEED
                  < f / p.in_div * p.out_mul / p.out_div.divFactor
              · exact ⟨.pllOverMax, by rw [if_pos hc5]⟩
              · rw [if_neg hc5]
                by_cases hc6 : f / p.in_div * p.out_mul / p.out_div.divFactor
                    ≠ p.target_freq
                · exact ⟨.pllTargetMismatch, by rw [if_pos hc6]⟩
                · exact absurd ⟨Nat.not_lt.mp hc1, Nat.not_lt.mp hc2,
                    Nat.not_lt.mp hc3, Nat.not_lt.mp hc4, Nat.not_lt.mp hc5,
                    not_ne_iff.mp hc6⟩ hneg

/-- Witness for C2: the spec's boundary example (source 16 MHz, input
divider 1, multiplier 10, output divider 2) succeeds and reports 80 MHz. -/
theorem pll_freeze_validation_witness :
    PllConfig.freezeCalc
      { source := .HSI16, target_freq := 80000000, in_div := 1,
        out_mul := 10, out_div := .Div2 } 16000000 = .ok 80000000 :=
  (pll_freeze_validation
    { source := .HSI16, target_freq := 80000000, in_div := 1,
      out_mul := 10, out_div := .Div2 } 16000000).1
    (by decide) (by decide) (by decide) (by decide) (by decide) (by decide)

/-! ### Tag / classifier helper lemmas -/

theorem isSw_false_of_tag {e : Event} (h : e.tag ≠ 11) : e.isSw = false := by
  cases e <;> simp_all [Event.tag, Event.isSw]

theorem isHpre_false_of_tag {e : Event} (h : e.tag ≠ 12) : e.isHpre = false := by
  cases e <;> simp_all [Event.tag, Event.isHpre]

theorem isAcr_false_of_tag {e : Event} (h : e.tag ≠ 15) : e.isAcr = false := by
  cases e <;> simp_all [Event.tag, Event.isAcr]

/-! ### Claim C5 -/

/-- C5: in every successful run of freeze, the flash wait-state (ACR)
write occurs strictly before the system-clock selector (SW) commit write
and strictly before the core-bus divider (HPRE) commit write, and all
three writes do occur. -/
theorem flash_before_clock_commit (c : CFGR) (hw : Hw) (ck : Clocks)
    (hok : (CFGR.freeze c hw).2 = .ok ck) :
    precedes Event.isAcr Event.isSw (CFGR.freeze c hw).1.tr
    ∧ precedes Event.isAcr Event.isHpre (CFGR.freeze c hw).1.tr
    ∧ (∃ e ∈ (CFGR.freeze c hw).1.tr, e.isAcr = true)
    ∧ (∃ e ∈ (CFGR.freeze c hw).1.tr, e.isSw = true)
    ∧ (∃ e ∈ (CFGR.freeze c hw).1.tr, e.isHpre = true) := by
  obtain ⟨pre, lM, lC, bSw, bH, hc, htr, hpreT, hlMT, hlCT, _⟩ :=
    freeze_ok_shape c hw ck hok
  rw [htr]
  refine ⟨?_, ?_, ?_, ?_, ?_⟩
  · have heq : pre ++ [Event.acrLatency (flashLatency hc.freq)] ++ lM
        ++ [Event.cfgrSw bSw] ++ [Event.cfgrHpre bH] ++ lC
        = (pre ++ [Event.acrLatency (flashLatency hc.freq)])
          ++ (lM ++ [Event.cfgrSw bSw] ++ [Event.cfgrHpre bH] ++ lC) := by
      simp [List.append_assoc]
    rw [heq]
    refine precedes_append ?_ ?_
    · intro e he
      rcases List.mem_append.mp he with h | h
      · exact isSw_false_of_tag (by have := hpreT e h; simp at this; omega)
      · simp at h
        rw [h]
        rfl
    · intro e he
      simp only [List.append_assoc, List.mem_append, List.mem_singleton] at he
      rcases he with h | h | h | h
      · exact isAcr_false_of_tag (by have := hlMT e h; simp at this; omega)
      · rw [h]; rfl
      · rw [h]; rfl
      · exact isAcr_false_of_tag (by have := hlCT e h; simp at this; omega)
  · have heq : pre ++ [Event.acrLatency (flashLatency hc.freq)] ++ lM
        ++ [Event.cfgrSw bSw] ++ [Event.cfgrHpre bH] ++ lC
        = (pre ++ [Event.acrLatency (flashLatency hc.freq)] ++ lM
            ++ [Event.cfgrSw bSw])
          ++ ([Event.cfgrHpre bH] ++ lC) := by
      simp [List.append_assoc]
    rw [heq]
    refine precedes_append ?_ ?_
    · intro e he
      simp only [List.append_assoc, List.mem_append, List.mem_singleton] at he
      rcases he with h | h | h | h
      · exact isHpre_false_of_tag (by have := hpreT e h; simp at this; omega)
      · rw [h]; rfl
      · exact isHpre_false_of_tag (by have := hlMT e h; simp at this; omega)
      · rw [h]; rfl
    · intro e he
      simp only [List.mem_append, List.mem_singleton] at he
      rcases he with h | h
      · rw [h]; rfl
      · exact isAcr_false_of_tag (by have := hlCT e h; simp at this; omega)
  · exact ⟨Event.acrLatency (flashLatency hc.freq), by simp, rfl⟩
  · exact ⟨Event.cfgrSw bSw, by simp, rfl⟩
  · exact ⟨Event.cfgrHpre bH, by simp, rfl⟩

/-- Witness for C5: a minimal successful configuration (MSI at 4 MHz). -/
theorem flash_before_clock_commit_witness :
    precedes Event.isAcr Event.isSw
      (CFGR.freeze { CFGR.default with msi := some .RANGE4M }
        { cr := { Cr.resetValue with msion := true }, sws := 0 }).1.tr
    ∧ precedes Event.isAcr Event.isHpre
      (CFGR.freeze { CFGR.default with msi := some .RANGE4M }
        { cr := { Cr.resetValue with msion := true }, sws := 0 }).1.tr
    ∧ (∃ e ∈ (CFGR.freeze { CFGR.default with msi := some .RANGE4M }
        { cr := { Cr.resetValue with msion := true }, sws := 0 }).1.tr, e.isAcr = true)
    ∧ (∃ e ∈ (CFGR.freeze { CFGR.default with msi := some .RANGE4M }
        { cr := { Cr.resetValue with msion := true }, sws := 0 }).1.tr, e.isSw = true)
    ∧ (∃ e ∈ (CFGR.freeze { CFGR.default with msi := some .RANGE4M }
        { cr := { Cr.resetValue with msion := true }, sws := 0 }).1.tr, e.isHpre = true) :=
  flash_before_clock_commit { CFGR.default with msi := some .RANGE4M }
    { cr := { Cr.resetValue with msion := true }, sws := 0 } Clocks.default (by rfl)

/-! ### Claim C8 -/

/-- C8: the flash wait-state count is the pure latency table of the
resolved core-bus frequency (0 up to 16 MHz, then 1, 2, 3 at the 32, 48,
64 MHz breakpoints, else 4), and the value the freeze sequence writes to
ACR is exactly that table applied to the `hclk` field of the record it
returns. -/
theorem flash_latency_table (c : CFGR) (hw : Hw) (n : Nat) :
    ((n ≤ 16000000 → flashLatency n = 0)
      ∧ (16000000 < n → n ≤ 32000000 → flashLatency n = 1)
      ∧ (32000000 < n → n ≤ 48000000 → flashLatency n = 2)
      ∧ (48000000 < n → n ≤ 64000000 → flashLatency n = 3)
      ∧ (64000000 < n → flashLatency n = 4))
    ∧ (∀ ck, (CFGR.freeze c hw).2 = .ok ck →
        Event.acrLatency (flashLatency ck.hclk) ∈ (CFGR.freeze c hw).1.tr) := by
  constructor
  · refine ⟨?_, ?_, ?_, ?_, ?_⟩
    · intro h1
      simp [flashLatency, h1]
    · intro h1 h2
      rw [flashLatency, if_neg (by omega), if_pos h2]
    · intro h1 h2
      rw [flashLatency, if_neg (by omega), if_neg (by omega), if_pos h2]
    · intro h1 h2
      rw [flashLatency, if_neg (by omega), if_neg (by omega),
        if_neg (by omega), if_pos h2]
    · intro h1
      rw [flashLatency, if_neg (by omega), if_neg (by omega),
        if_neg (by omega), if_neg (by omega)]
  · intro ck hok
    obtain ⟨pre, lM, lC, bSw, bH, hc, htr, _, _, _, hhclk⟩ :=
      freeze_ok_shape c hw ck hok
    rw [htr, hhclk]
    simp

/-- Witness for C8: the three spec data points, and the ACR write of a
concrete successful run. -/
theorem flash_latency_table_witness :
    flashLatency 16000000 = 0 ∧ flashLatency 16000001 = 1
      ∧ flashLatency 80000000 = 4
      ∧ Event.acrLatency (flashLatency (Clocks.default).hclk)
          ∈ (CFGR.freeze { CFGR.default with msi := some .RANGE4M }
              { cr := { Cr.resetValue with msion := true }, sws := 0 }).1.tr :=
  ⟨(flash_latency_table CFGR.default { cr := Cr.resetValue, sws := 0 } 16000000).1.1
      (by decide),
    (flash_latency_table CFGR.default { cr := Cr.resetValue, sws := 0 } 16000001).1.2.1
      (by decide) (by decide),
    (flash_latency_table CFGR.default { cr := Cr.resetValue, sws := 0 } 80000000).1.2.2.2.2
      (by decide),
    (flash_latency_table { CFGR.default with msi := some .RANGE4M }
      { cr := { Cr.resetValue with msion := true }, sws := 0 } 0).2 Clocks.default
      (by rfl)⟩

/-! ### Claim C10 (corrected) -/

/-- C10 counterexample: `setup_hsi16` and `HseConfig::freeze` do perform
whole-register CR writes, but svd2rust's `write` fills every unspecified
field from the register's reset value 0x0000_0063, not from zero — so
immediately after either write the MSI-enable bit established by the
baseline reset is still set (and the MSI range is still 6), refuting
"every bit of that control register other than the ones it sets
(including the MSI-enable bit established by the baseline reset ...) is
reset to zero".  (The previously set HSEON bit of the start state is
clobbered, as the whole-register write implies.) -/
theorem cr_write_keeps_msion_counterexample :
    (CFGR.setup_hsi16 { CFGR.default with hsi16_on := true }
      { hw := { cr := { Cr.resetValue with hseon := true }, sws := 0 },
        tr := [], clocks := Clocks.default }).hw.cr.msion = true
    ∧ (CFGR.setup_hsi16 { CFGR.default with hsi16_on := true }
        { hw := { cr := { Cr.resetValue with hseon := true }, sws := 0 },
          tr := [], clocks := Clocks.default }).hw.cr.msirange = 6
    ∧ (HseConfig.freeze { speed := 8000000, bypass := .Disable, css := .Disable }
        { hw := { cr := { Cr.resetValue with hseon := true }, sws := 0 },
          tr := [], clocks := Clocks.default }).1.hw.cr.msion = true
    ∧ (CFGR.setup_hsi16 { CFGR.default with hsi16_on := true }
        { hw := { cr := { Cr.resetValue with hseon := true }, sws := 0 },
          tr := [], clocks := Clocks.default }).hw.cr.hseon = false := by
  decide

/-- C10 (amended): `HseConfig::freeze` and `setup_hsi16` enable their
oscillator with a whole-register CR write, not a read-modify-write:
immediately after either operation, CR equals the register's reset value
0x0000_0063 with only the fields the operation sets changed — so every
previously set oscillator-enable bit (HSEON, HSION, PLLON) and CSSON /
HSEBYP are cleared, while the MSI-enable bit and MSI range come back as
their reset values MSION = 1, MSIRANGE = 6 rather than zero. -/
theorem cr_whole_register_writes (h : HseConfig) (c : CFGR) (s1 s2 : St)
    (hon : c.hsi16_on = true) :
    (h.freeze s1).1.hw.cr
        = { Cr.resetValue with
            hseon := true,
            hsebyp := decide (h.bypass = CrystalBypass.Enable),
            csson := decide (h.css = ClockSecuritySystem.Enable) }
    ∧ (c.setup_hsi16 s2).hw.cr = { Cr.resetValue with hsion := true } := by
  constructor
  · simp only [HseConfig.freeze]
    split
    · rename_i hcss
      simp [St.emit, hcss, Cr.resetValue]
    · rename_i hcss
      simp [St.emit, hcss, Cr.resetValue]
  · simp only [CFGR.setup_hsi16, hon]
    simp [St.emit]

/-- Witness for C10 (amended) at a concrete HSE configuration and builder,
started from a state with the MSI and HSE enable bits set. -/
theorem cr_whole_register_writes_witness :
    (HseConfig.freeze { speed := 8000000, bypass := .Disable, css := .Disable }
        { hw := { cr := { Cr.resetValue with
              msion := true, hseon := true }, sws := 0 },
          tr := [], clocks := Clocks.default }).1.hw.cr
      = { Cr.resetValue with
          hseon := true,
          hsebyp := decide (CrystalBypass.Disable = CrystalBypass.Enable),
          csson := decide (ClockSecuritySystem.Disable = ClockSecuritySystem.Enable) }
    ∧ (CFGR.setup_hsi16 { CFGR.default with hsi16_on := true }
        { hw := { cr := { Cr.resetValue with
              msion := true, hseon := true }, sws := 0 },
          tr := [], clocks := Clocks.default }).hw.cr
      = { Cr.resetValue with hsion := true } :=
  cr_whole_register_writes
    { speed := 8000000, bypass := .Disable, css := .Disable }
    { CFGR.default with hsi16_on := true }
    { hw := { cr := { Cr.resetValue with
              msion := true, hseon := true }, sws := 0 },
      tr := [], clocks := Clocks.default }
    { hw := { cr := { Cr.resetValue with
              msion := true, hseon := true }, sws := 0 },
      tr := [], clocks := Clocks.default }
    rfl

/-! ### Chain lemmas: traces of the phases leading up to the SW commit -/

theorem chain_to_lse (c : CFGR) (hw : Hw) :
    TrExt [0, 1, 2, 3, 4, 5, 6, 7, 8, 9, 10, 12, 13, 14, 15]
      { hw := hw, tr := [], clocks := Clocks.default }
      (c.setup_lse (c.setup_lsi (reset_clocks
        { hw := hw, tr := [], clocks := Clocks.default }))).1 := by
  have t1 : TrExt [0, 1, 2, 3, 4, 5, 6, 7, 8, 9, 10, 12, 13, 14, 15]
      { hw := hw, tr := [], clocks := Clocks.default }
      (reset_clocks { hw := hw, tr := [], clocks := Clocks.default }) :=
    TrExt.mono (by decide) (reset_clocks_ext _)
  have t2 : TrExt [0, 1, 2, 3, 4, 5, 6, 7, 8, 9, 10, 12, 13, 14, 15]
      (reset_clocks { hw := hw, tr := [], clocks := Clocks.default })
      (c.setup_lsi (reset_clocks { hw := hw, tr := [], clocks := Clocks.default })) :=
    TrExt.mono (by decide) (setup_lsi_ext c _)
  have t3 : TrExt [0, 1, 2, 3, 4, 5, 6, 7, 8, 9, 10, 12, 13, 14, 15]
      (c.setup_lsi (reset_clocks { hw := hw, tr := [], clocks := Clocks.default }))
      (c.setup_lse (c.setup_lsi (reset_clocks
        { hw := hw, tr := [], clocks := Clocks.default }))).1 :=
    TrExt.mono (by decide) (setup_lse_ext c _)
  exact t1.trans (t2.trans t3)

theorem chain_to_pll (c : CFGR) (s3 : St) :
    TrExt [0, 1, 2, 3, 4, 5, 6, 7, 8, 9, 10, 12, 13, 14, 15]
      s3 (c.setup_pll (c.setup_hsi16 (c.setup_hsi48 (c.setup_hse s3)))).1 := by
  have t4 : TrExt [0, 1, 2, 3, 4, 5, 6, 7, 8, 9, 10, 12, 13, 14, 15]
      s3 (c.setup_hse s3) :=
    TrExt.mono (by decide) (setup_hse_ext c s3)
  have t5 : TrExt [0, 1, 2, 3, 4, 5, 6, 7, 8, 9, 10, 12, 13, 14, 15]
      (c.setup_hse s3) (c.setup_hsi48 (c.setup_hse s3)) :=
    TrExt.mono (by decide) (setup_hsi48_ext c _)
  have t6 : TrExt [0, 1, 2, 3, 4, 5, 6, 7, 8, 9, 10, 12, 13, 14, 15]
      (c.setup_hsi48 (c.setup_hse s3))
      (c.setup_hsi16 (c.setup_hsi48 (c.setup_hse s3))) :=
    TrExt.mono (by decide) (setup_hsi16_ext c _)
  have t7 : TrExt [0, 1, 2, 3, 4, 5, 6, 7, 8, 9, 10, 12, 13, 14, 15]
      (c.setup_hsi16 (c.setup_hsi48 (c.setup_hse s3)))
      (c.setup_pll (c.setup_hsi16 (c.setup_hsi48 (c.setup_hse s3)))).1 :=
    TrExt.mono (by decide) (setup_pll_ext c _)
  exact t4.trans (t5.trans (t6.trans t7))

theorem chain_to_periph (c : CFGR) (hc : HclkConfig) (s4 : St) :
    TrExt [0, 1, 2, 3, 4, 5, 6, 7, 8, 9, 10, 12, 13, 14, 15]
      s4 (c.setup_periph_clocks hc s4).1 :=
  TrExt.mono (by decide) (setup_periph_ext c hc s4)

theorem chain_flash_msi (c : CFGR) (hc : HclkConfig) (s5 : St) :
    TrExt [0, 1, 2, 3, 4, 5, 6, 7, 8, 9, 10, 12, 13, 14, 15]
      s5 (c.configure_msi (CFGR.adjust_flash_wait_states hc s5)) := by
  have t1 : TrExt [0, 1, 2, 3, 4, 5, 6, 7, 8, 9, 10, 12, 13, 14, 15]
      s5 (CFGR.adjust_flash_wait_states hc s5) :=
    ⟨[.acrLatency (flashLatency hc.freq)], adjust_flash_tr hc s5,
      by simp [Event.tag]⟩
  have t2 : TrExt [0, 1, 2, 3, 4, 5, 6, 7, 8, 9, 10, 12, 13, 14, 15]
      (CFGR.adjust_flash_wait_states hc s5)
      (c.configure_msi (CFGR.adjust_flash_wait_states hc s5)) :=
    TrExt.mono (by decide) (configure_msi_ext c _)
  exact t1.trans t2

/-- A state reached from the empty-trace start through SW-free phases
contains no SW write in its trace. -/
theorem no_sw_of_chain {s' : St} (hw : Hw)
    (h : TrExt [0, 1, 2, 3, 4, 5, 6, 7, 8, 9, 10, 12, 13, 14, 15]
      { hw := hw, tr := [], clocks := Clocks.default } s') :
    ∀ b, Event.cfgrSw b ∉ s'.tr := by
  intro b hb
  have hx := h.not_mem (Event.cfgrSw b) (by simp [Event.tag]) hb
  simp at hx

/-! ### Claim C3 -/

/-- C3: committing the system-clock selection checks that the realized
source frequency equals the declared one; whenever they differ (in a
configuration that resolves to `scfg` with realized source speed `sp`),
freeze aborts with an error and no SW (system-clock selector) write is
ever performed. -/
theorem sysclk_mismatch_aborts (c : CFGR) (hw : Hw) (scfg : SysclkConfig)
    (sp : Nat) (h1 : c.create_sysclk_config = .ok scfg)
    (h2 : c.sysclkSourceSpeed scfg.source_clock = .ok sp)
    (h3 : sp ≠ scfg.speed) :
    rOk (CFGR.freeze c hw).2 = false
    ∧ ∀ b, Event.cfgrSw b ∉ (CFGR.freeze c hw).1.tr := by
  rcases hfz : CFGR.freeze c hw with ⟨st, r⟩
  simp only [CFGR.freeze] at hfz
  split at hfz
  · rename_i s3 e3 heqLse
    cases hfz
    refine ⟨rfl, ?_⟩
    have hA := chain_to_lse c hw
    rw [heqLse] at hA
    exact no_sw_of_chain hw hA
  · rename_i s3 u3 heqLse
    have hA := chain_to_lse c hw
    rw [heqLse] at hA
    split at hfz
    · rename_i s4 e4 heqPll
      cases hfz
      refine ⟨rfl, ?_⟩
      have hB := chain_to_pll c s3
      rw [heqPll] at hB
      exact no_sw_of_chain hw (hA.trans hB)
    · rename_i s4 u4 heqPll
      have hB := chain_to_pll c s3
      rw [heqPll] at hB
      split at hfz
      · rename_i e5 heqSc
        cases hfz
        refine ⟨rfl, ?_⟩
        exact no_sw_of_chain hw (hA.trans hB)
      · rename_i sysclkCfg heqSc
        have hceq : sysclkCfg = scfg := by
          rw [h1] at heqSc
          exact (Except.ok.inj heqSc).symm
        subst hceq
        split at hfz
        · rename_i s5 e5 heqPer
          cases hfz
          refine ⟨rfl, ?_⟩
          have hC := chain_to_periph c (c.create_hclk_config sysclkCfg) s4
          rw [heqPer] at hC
          exact no_sw_of_chain hw (hA.trans (hB.trans hC))
        · rename_i s5 u5 heqPer
          have hC := chain_to_periph c (c.create_hclk_config sysclkCfg) s4
          rw [heqPer] at hC
          have hD := chain_flash_msi c (c.create_hclk_config sysclkCfg) s5
          have hset : c.setup_sysclk sysclkCfg
              (c.configure_msi (CFGR.adjust_flash_wait_states
                (c.create_hclk_config sysclkCfg) s5))
              = (c.configure_msi (CFGR.adjust_flash_wait_states
                  (c.create_hclk_config sysclkCfg) s5),
                .error .sysclkSpeedMismatch) := by
            simp only [CFGR.setup_sysclk, h2]
            rw [if_pos h3]
          split at hfz
          · rename_i s8 e8 heqSys
            rw [hset] at heqSys
            cases heqSys
            cases hfz
            refine ⟨rfl, ?_⟩
            exact no_sw_of_chain hw (hA.trans (hB.trans (hC.trans hD)))
          · rename_i s8 u8 heqSys
            rw [hset] at heqSys
            exact absurd heqSys (by simp)

/-- Witness for C3: SYSCLK declared at 10 MHz on the HSI16 (which actually
runs at 16 MHz). -/
theorem sysclk_mismatch_aborts_witness :
    rOk (CFGR.freeze { CFGR.default with
        hsi16_on := true,
        sysclk := some { speed := 10000000, source_clock := .HSI16 } }
      { cr := { Cr.resetValue with msion := true }, sws := 0 }).2 = false
    ∧ ∀ b, Event.cfgrSw b ∉ (CFGR.freeze { CFGR.default with
        hsi16_on := true,
        sysclk := some { speed := 10000000, source_clock := .HSI16 } }
      { cr := { Cr.resetValue with msion := true }, sws := 0 }).1.tr :=
  sysclk_mismatch_aborts
    { CFGR.default with
      hsi16_on := true,
      sysclk := some { speed := 10000000, source_clock := .HSI16 } }
    { cr := { Cr.resetValue with msion := true }, sws := 0 }
    { speed := 10000000, source_clock := .HSI16 } 16000000
    rfl rfl (by decide)

/-! ### Claim C4 (corrected) -/

/-- C4 counterexample: with CSS requested on the LSE and the LSI disabled,
freeze does fail fatally with the CSS-prerequisite error — but the LSE
enable/drive-strength write (`bdcrLse`) is already in the trace at the
moment of failure, contradicting "signaled before any hardware register
write for the LSE node". -/
theorem lse_css_before_write_counterexample :
    (CFGR.freeze { CFGR.default with
        lse := some { bypass := .Disable, css := .Enable } }
      { cr := { Cr.resetValue with msion := true }, sws := 0 }).2
      = .error .lseCssWithoutLsi
    ∧ Event.bdcrLse CrystalBypass.Disable
        ∈ (CFGR.freeze { CFGR.default with
            lse := some { bypass := .Disable, css := .Enable } }
          { cr := { Cr.resetValue with msion := true }, sws := 0 }).1.tr :=
  ⟨rfl, by decide⟩

/-- C4 (amended): for every builder with the LSE configured, clock
security enabled and the LSI not enabled, freeze fails fatally with the
CSS-prerequisite error; the failure is signaled only after the LSE
enable/drive-strength write (which is present in the trace) and before
the clock-security enable bit is written (which is absent). -/
theorem lse_css_requires_lsi (c : CFGR) (hw : Hw) (l : LseConfig)
    (hlse : c.lse = some l) (hcss : l.css = ClockSecuritySystem.Enable)
    (hlsi : c.lsi_on = false) :
    (CFGR.freeze c hw).2 = .error .lseCssWithoutLsi
    ∧ Event.bdcrLse l.bypass ∈ (CFGR.freeze c hw).1.tr
    ∧ Event.bdcrLsecsson ∉ (CFGR.freeze c hw).1.tr := by
  have hset : c.setup_lse (c.setup_lsi (reset_clocks
      { hw := hw, tr := [], clocks := Clocks.default }))
      = ((((c.setup_lsi (reset_clocks
          { hw := hw, tr := [], clocks := Clocks.default })).emit
            .pwrDbp).emit (.bdcrLse l.bypass)),
        .error .lseCssWithoutLsi) := by
    simp only [CFGR.setup_lse, hlse]
    rw [if_pos hcss, if_pos hlsi]
  have hch : TrExt [0, 6, 10]
      { hw := hw, tr := [], clocks := Clocks.default }
      (c.setup_lsi (reset_clocks
        { hw := hw, tr := [], clocks := Clocks.default })) := by
    have t1 : TrExt [0, 6, 10] { hw := hw, tr := [], clocks := Clocks.default }
        (reset_clocks { hw := hw, tr := [], clocks := Clocks.default }) :=
      TrExt.mono (by decide) (reset_clocks_ext _)
    have t2 : TrExt [0, 6, 10]
        (reset_clocks { hw := hw, tr := [], clocks := Clocks.default })
        (c.setup_lsi (reset_clocks
          { hw := hw, tr := [], clocks := Clocks.default })) :=
      TrExt.mono (by decide) (setup_lsi_ext c _)
    exact t1.trans t2
  simp only [CFGR.freeze, hset]
  refine ⟨trivial, ?_, ?_⟩
  · simp [St.emit]
  · intro hmem
    simp only [St.emit, List.mem_append, List.mem_singleton] at hmem
    rcases hmem with (hmem | hmem) | hmem
    · have hx := hch.not_mem Event.bdcrLsecsson (by simp [Event.tag]) hmem
      simp at hx
    · exact absurd hmem (by simp)
    · exact absurd hmem (by simp)

/-- Witness for C4 (amended) at a concrete builder. -/
theorem lse_css_requires_lsi_witness :
    (CFGR.freeze { CFGR.default with
        lse := some { bypass := .Disable, css := .Enable } }
      { cr := { Cr.resetValue with msion := true }, sws := 0 }).2
      = .error .lseCssWithoutLsi
    ∧ Event.bdcrLse CrystalBypass.Disable
        ∈ (CFGR.freeze { CFGR.default with
            lse := some { bypass := .Disable, css := .Enable } }
          { cr := { Cr.resetValue with msion := true }, sws := 0 }).1.tr
    ∧ Event.bdcrLsecsson
        ∉ (CFGR.freeze { CFGR.default with
            lse := some { bypass := .Disable, css := .Enable } }
          { cr := { Cr.resetValue with msion := true }, sws := 0 }).1.tr :=
  lse_css_requires_lsi
    { CFGR.default with lse := some { bypass := .Disable, css := .Enable } }
    { cr := { Cr.resetValue with msion := true }, sws := 0 }
    { bypass := .Disable, css := .Enable } rfl rfl rfl

/-! ### Claim C6 -/

/-- C6: with no explicit system-clock selection, freeze resolves the
system clock to the configured MSI at its range's frequency; with no MSI
either, freeze fails fatally. -/
theorem sysclk_default_resolution (c : CFGR) (hw : Hw)
    (hnos : c.sysclk = none) :
    (∀ m, c.msi = some m →
      c.create_sysclk_config = .ok { speed := m.toHertz, source_clock := .MSI })
    ∧ (c.msi = none → rOk (CFGR.freeze c hw).2 = false) := by
  constructor
  · intro m hm
    simp [CFGR.create_sysclk_config, hnos, hm]
  · intro hm
    rcases hfz : CFGR.freeze c hw with ⟨st, r⟩
    simp only [CFGR.freeze] at hfz
    split at hfz
    · cases hfz
      rfl
    · split at hfz
      · cases hfz
        rfl
      · split at hfz
        · cases hfz
          rfl
        · rename_i scfg heqSc
          rw [CFGR.create_sysclk_config, hnos, hm] at heqSc
          exact absurd heqSc (by simp)

/-- Witness for C6: the MSI fallback resolution at RANGE4M, and a fatal
freeze of the all-default builder. -/
theorem sysclk_default_resolution_witness :
    CFGR.create_sysclk_config { CFGR.default with msi := some .RANGE4M }
      = .ok { speed := MsiFreq.RANGE4M.toHertz, source_clock := .MSI }
    ∧ rOk (CFGR.freeze CFGR.default
        { cr := { Cr.resetValue with msion := true }, sws := 0 }).2 = false :=
  ⟨(sysclk_default_resolution { CFGR.default with msi := some .RANGE4M }
      { cr := { Cr.resetValue with msion := true }, sws := 0 } rfl).1 .RANGE4M rfl,
    (sysclk_default_resolution CFGR.default
      { cr := { Cr.resetValue with msion := true }, sws := 0 } rfl).2 rfl⟩

/-! ### Claim C7 (corrected) -/

/-- C7 counterexample: SYSCLK on the HSE with the HSE never enabled, but
with an additional misconfigured LSE node — freeze fails fatally, yet the
reported error is the LSE clock-security prerequisite failure, not a
missing-dependency error, because the LSE phase runs first.  So "fails
with a missing-dependency error regardless of the values of all other
fields" is false. -/
theorem sysclk_hse_missing_counterexample :
    (CFGR.freeze { CFGR.default with
        sysclk := some { speed := 8000000, source_clock := .HSE },
        lse := some { bypass := .Disable, css := .Enable } }
      { cr := { Cr.resetValue with msion := true }, sws := 0 }).2
      = .error .lseCssWithoutLsi
    ∧ Err.isMissingDep .lseCssWithoutLsi = false :=
  ⟨rfl, rfl⟩

/-- C7 (amended): for every builder whose system-clock source is the HSE
while the HSE was never enabled, freeze fails fatally regardless of all
other fields; with every other field left at its default the error is the
missing-dependency error for the HSE. -/
theorem sysclk_hse_missing_fatal (c : CFGR) (hw : Hw) (f : Nat)
    (hs : c.sysclk = some { speed := f, source_clock := .HSE })
    (hh : c.hse = none) :
    rOk (CFGR.freeze c hw).2 = false
    ∧ (CFGR.freeze { CFGR.default with
          sysclk := some { speed := 8000000, source_clock := .HSE } }
        { cr := { Cr.resetValue with msion := true }, sws := 0 }).2
        = .error .sysclkHseMissing := by
  refine ⟨?_, rfl⟩
  rcases hfz : CFGR.freeze c hw with ⟨st, r⟩
  simp only [CFGR.freeze] at hfz
  split at hfz
  · cases hfz
    rfl
  · split at hfz
    · cases hfz
      rfl
    · split at hfz
      · cases hfz
        rfl
      · rename_i sysclkCfg heqSc
        simp only [CFGR.create_sysclk_config, hs] at heqSc
        have hceq : sysclkCfg = { speed := f, source_clock := .HSE } :=
          (Except.ok.inj heqSc).symm
        subst hceq
        split at hfz
        · cases hfz
          rfl
        · rename_i s5 u5 heqPer
          have hset : c.setup_sysclk { speed := f, source_clock := .HSE }
              (c.configure_msi (CFGR.adjust_flash_wait_states
                (c.create_hclk_config { speed := f, source_clock := .HSE }) s5))
              = (c.configure_msi (CFGR.adjust_flash_wait_states
                  (c.create_hclk_config { speed := f, source_clock := .HSE }) s5),
                .error .sysclkHseMissing) := by
            simp [CFGR.setup_sysclk, CFGR.sysclkSourceSpeed, hh]
          split at hfz
          · cases hfz
            rfl
          · rename_i s8 u8 heqSys
            rw [hset] at heqSys
            exact absurd heqSys (by simp)

/-- Witness for C7 (amended): a builder with HSE-sourced SYSCLK, no HSE,
and an otherwise-valid MSI configuration. -/
theorem sysclk_hse_missing_fatal_witness :
    rOk (CFGR.freeze { CFGR.default with
        msi := some .RANGE4M,
        sysclk := some { speed := 8000000, source_clock := .HSE } }
      { cr := { Cr.resetValue with msion := true }, sws := 0 }).2 = false
    ∧ (CFGR.freeze { CFGR.default with
          sysclk := some { speed := 8000000, source_clock := .HSE } }
        { cr := { Cr.resetValue with msion := true }, sws := 0 }).2
        = .error .sysclkHseMissing :=
  sysclk_hse_missing_fatal
    { CFGR.default with
      msi := some .RANGE4M,
      sysclk := some { speed := 8000000, source_clock := .HSE } }
    { cr := { Cr.resetValue with msion := true }, sws := 0 } 8000000 rfl rfl

/-! ### Claim C9 (corrected) -/

/-- C9 counterexample: the frozen record does not hold the status of every
oscillator.  Two builders differing only in the HSI16 enable flag freeze
to identical records (the record has no HSI16 information), and when no
MSI was requested the record still reports the MSI as `Some RANGE4M`
although the cleanup phase has cleared the MSI enable bit. -/
theorem clocks_record_counterexample :
    ((CFGR.freeze { CFGR.default with msi := some .RANGE4M, hsi16_on := true }
        { cr := { Cr.resetValue with msion := true }, sws := 0 }).2
      = (CFGR.freeze { CFGR.default with msi := some .RANGE4M, hsi16_on := false }
        { cr := { Cr.resetValue with msion := true }, sws := 0 }).2
      ∧ rOk (CFGR.freeze { CFGR.default with msi := some .RANGE4M, hsi16_on := true }
          { cr := { Cr.resetValue with msion := true }, sws := 0 }).2 = true)
    ∧ ((CFGR.freeze { CFGR.default with
          hsi16_on := true,
          sysclk := some { speed := 16000000, source_clock := .HSI16 } }
        { cr := { Cr.resetValue with msion := true }, sws := 0 }).1.clocks.msi
          = some MsiFreq.RANGE4M
      ∧ rOk (CFGR.freeze { CFGR.default with
            hsi16_on := true,
            sysclk := some { speed := 16000000, source_clock := .HSI16 } }
          { cr := { Cr.resetValue with msion := true }, sws := 0 }).2 = true
      ∧ (CFGR.freeze { CFGR.default with
            hsi16_on := true,
            sysclk := some { speed := 16000000, source_clock := .HSI16 } }
          { cr := { Cr.resetValue with msion := true }, sws := 0 }).1.hw.cr.msion
          = false) :=
  ⟨⟨rfl, rfl⟩, rfl, rfl, rfl⟩

/-- C9 (amended): the record returned by a successful freeze reflects the
statuses the phases record, but carries no HSI16 field; and whenever no
MSI configuration was requested it keeps reporting the bootstrap default
`Some RANGE4M` even though the cleanup phase has cleared the MSI enable
bit in hardware. -/
theorem clocks_msi_stale_after_cleanup (c : CFGR) (hw : Hw) (ck : Clocks)
    (hm : c.msi = none) (hok : (CFGR.freeze c hw).2 = .ok ck) :
    ck.msi = some MsiFreq.RANGE4M
    ∧ (CFGR.freeze c hw).1.hw.cr.msion = false := by
  rcases hfz : CFGR.freeze c hw with ⟨st, r⟩
  rw [hfz] at hok
  simp only at hok
  subst hok
  simp only [CFGR.freeze] at hfz
  split at hfz
  · exact absurd hfz (by simp)
  · rename_i s3 u3 heqLse
    split at hfz
    · exact absurd hfz (by simp)
    · rename_i s4 u4 heqPll
      split at hfz
      · exact absurd hfz (by simp)
      · rename_i sysclkCfg heqSc
        split at hfz
        · exact absurd hfz (by simp)
        · rename_i s5 u5 heqPer
          split at hfz
          · exact absurd hfz (by simp)
          · rename_i s8 u8 heqSys
            split at hfz
            · exact absurd hfz (by simp)
            · rename_i s9 u9 heqHclk
              have hst : st = c.clean_msi s9 := by
                cases hfz
                rfl
              have hck : ck = (c.clean_msi s9).clocks := by
                cases hfz
                rfl
              -- track the msi field of the record backwards to the default
              have m3 : s3.clocks.msi = Clocks.default.msi := by
                have hx := (setup_lse_clocks c (c.setup_lsi (reset_clocks
                  { hw := hw, tr := [], clocks := Clocks.default }))).1
                rw [heqLse] at hx
                rw [hx, (setup_lsi_clocks c _).1, reset_clocks_clocks]
              have m4 : s4.clocks.msi = s3.clocks.msi := by
                have hx := (setup_pll_clocks c
                  (c.setup_hsi16 (c.setup_hsi48 (c.setup_hse s3)))).1
                rw [heqPll] at hx
                rw [hx, setup_hsi16_clocks, (setup_hsi48_clocks c _).1,
                  (setup_hse_clocks c _).1]
              have m5 : s5.clocks.msi = s4.clocks.msi := by
                have hx := (setup_periph_clocks_clocks c
                  (c.create_hclk_config sysclkCfg) s4).1
                rw [heqPer] at hx
                exact hx
              have m7 : (c.configure_msi (CFGR.adjust_flash_wait_states
                  (c.create_hclk_config sysclkCfg) s5)).clocks.msi
                  = s5.clocks.msi := by
                rw [configure_msi_none c _ hm, adjust_flash_clocks]
              have m8 : s8.clocks.msi
                  = (c.configure_msi (CFGR.adjust_flash_wait_states
                    (c.create_hclk_config sysclkCfg) s5)).clocks.msi := by
                have hx := (setup_sysclk_clocks c sysclkCfg
                  (c.configure_msi (CFGR.adjust_flash_wait_states
                    (c.create_hclk_config sysclkCfg) s5))).1
                rw [heqSys] at hx
                exact hx
              have m9 : s9.clocks.msi = s8.clocks.msi := by
                have hx := (setup_hclk_clocks
                  (c.create_hclk_config sysclkCfg) sysclkCfg s8).1
                rw [heqHclk] at hx
                exact hx
              constructor
              · rw [hck, clean_msi_clocks, m9, m8, m7, m5, m4, m3]
                rfl
              · rw [hst]
                exact clean_msi_none_msion c s9 hm

/-- Witness for C9 (amended): a successful freeze with the HSI16 as system
clock and no MSI requested. -/
theorem clocks_msi_stale_after_cleanup_witness :
    ({ hclk := 16000000, hsi48 := false, msi := some MsiFreq.RANGE4M,
        lsi := false, lse := false, hse := none, pclk1 := 16000000,
        pclk2 := 16000000, ppre1 := 1, ppre2 := 1, sysclk := 16000000,
        timclk1 := 16000000, timclk2 := 16000000, pll := none } : Clocks).msi
      = some MsiFreq.RANGE4M
    ∧ (CFGR.freeze { CFGR.default with
          hsi16_on := true,
          sysclk := some { speed := 16000000, source_clock := .HSI16 } }
        { cr := { Cr.resetValue with msion := true }, sws := 0 }).1.hw.cr.msion
        = false :=
  clocks_msi_stale_after_cleanup
    { CFGR.default with
      hsi16_on := true,
      sysclk := some { speed := 16000000, source_clock := .HSI16 } }
    { cr := { Cr.resetValue with msion := true }, sws := 0 }
    { hclk := 16000000, hsi48 := false, msi := some MsiFreq.RANGE4M,
      lsi := false, lse := false, hse := none, pclk1 := 16000000,
      pclk2 := 16000000, ppre1 := 1, ppre2 := 1, sysclk := 16000000,
      timclk1 := 16000000, timclk2 := 16000000, pll := none }
    rfl rfl

end Rcc
